import Mathlib

/-!
Shallow embedding of the Game2AI arena-game simulation core
(gravity/locomotion physics, weapons, hazards, collisions, wire
serialization and client-side snapshot interpolation), together with
theorems settling the specification claims.

Modelling conventions:
* JS numbers are modelled as exact rationals (`ℚ`).
* The JS `Math` intrinsics that are genuinely real-valued
  (`Math.sqrt`, `Math.cos`, `Math.sin`, `Math.atan2`) are passed
  explicitly as a `JsMath` record of rational functions; theorems that
  depend on their defining properties take those properties as local
  hypotheses at the points where the code evaluates them, and witnesses
  instantiate `JsMath` with tables that are exact at those points.
* `Math.random()` draws are passed explicitly as rational arguments or
  streams (`Nat → ℚ`) with values in `[0,1)`.
* `Math.PI` is modelled by the rational constant `piQ` (the decimal
  printed for the JS double `Math.PI`).
* JS `Math.round` rounds half toward positive infinity:
  `jsRound q = ⌊q + 1/2⌋`.
-/

/-- JS `Math.round` (half rounds toward +∞). -/
def jsRound (q : ℚ) : ℤ := ⌊q + 1/2⌋

/-- Round to a whole number, as done by `Math.round(x)` in the wire encoders. -/
def round0 (q : ℚ) : ℚ := (jsRound q : ℚ)

/-- Round to one decimal, `Math.round(x * 10) / 10`. -/
def round1 (q : ℚ) : ℚ := (jsRound (q * 10) : ℚ) / 10

/-- Round to two decimals, `Math.round(x * 100) / 100`. -/
def round2 (q : ℚ) : ℚ := (jsRound (q * 100) : ℚ) / 100

/-- The value of the JS double `Math.PI`, as used by the source. -/
def piQ : ℚ := 3.141592653589793

/-- 2D vector, mirroring `Vec2` of Physics.js. -/
structure Vec2 where
  x : ℚ
  y : ℚ
  deriving DecidableEq, Repr

namespace Vec2

def add (a b : Vec2) : Vec2 := ⟨a.x + b.x, a.y + b.y⟩

def sub (a b : Vec2) : Vec2 := ⟨a.x - b.x, a.y - b.y⟩

def scale (a : Vec2) (s : ℚ) : Vec2 := ⟨a.x * s, a.y * s⟩

def zero : Vec2 := ⟨0, 0⟩

/-- Squared length `lengthSq()` (exact, no square root needed). -/
def sqLen (a : Vec2) : ℚ := a.x * a.x + a.y * a.y

end Vec2

/-- The real-valued JS `Math` intrinsics used by the engine, passed in
explicitly (JS evaluates them in floating point; theorems state the
properties assumed of them where it matters). -/
structure JsMath where
  sqrt : ℚ → ℚ
  cos : ℚ → ℚ
  sin : ℚ → ℚ
  atan2 : ℚ → ℚ → ℚ

namespace Vec2

/-- `Vec2.length()`, via the supplied square root. -/
def len (m : JsMath) (a : Vec2) : ℚ := m.sqrt (a.x * a.x + a.y * a.y)

/-- `Vec2.normalize()` — returns the zero vector on zero length. -/
def normalize (m : JsMath) (a : Vec2) : Vec2 :=
  let l := len m a
  if l = 0 then ⟨0, 0⟩ else ⟨a.x / l, a.y / l⟩

/-- `Vec2.distTo(v)`. -/
def distTo (m : JsMath) (a b : Vec2) : ℚ := len m (sub a b)

end Vec2

/-- Planet biome tags (`themeKey` of Planet.js). -/
inductive Theme where
  | lava
  | ice
  | forest
  | crystal
  | desert
  deriving DecidableEq, Repr

/-- Celestial body, mirroring `Planet` of Planet.js (decorative surface
details omitted: they are rendering-only). -/
structure Planet where
  x : ℚ
  y : ℚ
  radius : ℚ
  mass : ℚ
  gravityRange : ℚ
  themeKey : Theme
  deriving DecidableEq, Repr

namespace Planet

/-- The `Planet` constructor: `mass = radius * 1.5`, `gravityRange = radius * 5`. -/
def mk0 (x y radius : ℚ) (themeKey : Theme) : Planet :=
  { x := x, y := y, radius := radius, mass := radius * (3/2)
    gravityRange := radius * 5, themeKey := themeKey }

def pos (p : Planet) : Vec2 := ⟨p.x, p.y⟩

/-- `Planet.isInside(x, y)`: `sqrt(dx²+dy²) < radius`. -/
def isInside (m : JsMath) (p : Planet) (x y : ℚ) : Bool :=
  decide (m.sqrt ((x - p.x) * (x - p.x) + (y - p.y) * (y - p.y)) < p.radius)

/-- `Planet.getSurfacePoint(angle)`: point at `radius + 2` along `angle`. -/
def getSurfacePoint (m : JsMath) (p : Planet) (angle : ℚ) : Vec2 :=
  ⟨p.x + m.cos angle * (p.radius + 2), p.y + m.sin angle * (p.radius + 2)⟩

end Planet

namespace Physics

def GRAVITY_CONSTANT : ℚ := 2200

def MAX_VELOCITY : ℚ := 800

def SURFACE_OFFSET : ℚ := 2

/-- `Physics.gravityAccel(entityPos, planet)`: magnitude `G·M/d²` capped at
3500 toward the planet, zero inside half the radius. -/
def gravityAccel (m : JsMath) (entityPos : Vec2) (planet : Planet) : Vec2 :=
  let diff : Vec2 := ⟨planet.x - entityPos.x, planet.y - entityPos.y⟩
  let distSq := diff.x * diff.x + diff.y * diff.y
  let dist := m.sqrt distSq
  if dist < planet.radius * (1/2) then ⟨0, 0⟩
  else
    let force := GRAVITY_CONSTANT * planet.mass / distSq
    (diff.normalize m).scale (min force 3500)

/-- `Physics.nearestPlanet(pos, planets)`: planet minimising
`distTo(center) - radius` (first strict minimum wins; the JS `Infinity`
initial value is modelled by the `none` accumulator). -/
def nearestPlanet (m : JsMath) (p : Vec2) (planets : List Planet) :
    Option (Planet × ℚ) :=
  planets.foldl
    (fun acc pl =>
      let d := Vec2.distTo m p pl.pos - pl.radius
      match acc with
      | none => some (pl, d)
      | some (pl0, d0) => if d < d0 then some (pl, d) else some (pl0, d0))
    none

/-- `Physics.projectToSurface(pos, planet)`. -/
def projectToSurface (m : JsMath) (p : Vec2) (planet : Planet) : Vec2 :=
  let dir := (Vec2.sub p planet.pos).normalize m
  Vec2.add planet.pos (dir.scale (planet.radius + SURFACE_OFFSET))

/-- `Physics.surfaceAngle(pos, planet)`. -/
def surfaceAngle (m : JsMath) (p : Vec2) (planet : Planet) : ℚ :=
  m.atan2 (p.y - planet.y) (p.x - planet.x)

/-- `Physics.circleCollision`: squared distance against squared radius sum. -/
def circleCollision (x1 y1 r1 x2 y2 r2 : ℚ) : Bool :=
  decide ((x2 - x1) * (x2 - x1) + (y2 - y1) * (y2 - y1) ≤ (r1 + r2) * (r1 + r2))

/-- `Physics.clampVelocity(vel)`. -/
def clampVelocity (m : JsMath) (vel : Vec2) : Vec2 :=
  let l := vel.len m
  if MAX_VELOCITY < l then (vel.normalize m).scale MAX_VELOCITY else vel

/-- `Physics.lerp(a, b, t)`. -/
def lerp (a b t : ℚ) : ℚ := a + (b - a) * t

/-- First `while` of `Physics.lerpAngle`: subtract `2π` while above `π`. -/
def wrapDown (d : ℚ) : ℚ :=
  if piQ < d then wrapDown (d - 2 * piQ) else d
termination_by (⌈(d - piQ) / (2 * piQ)⌉).toNat
decreasing_by
  have hp : (0:ℚ) < piQ := by norm_num [piQ]
  have h2 : (0:ℚ) < 2 * piQ := by linarith
  have key : (d - 2 * piQ - piQ) / (2 * piQ) = (d - piQ) / (2 * piQ) - 1 := by
    field_simp
    ring
  rw [key, Int.ceil_sub_one]
  have hpos : 0 < ⌈(d - piQ) / (2 * piQ)⌉ :=
    Int.ceil_pos.mpr (div_pos (by linarith) h2)
  omega

/-- Second `while` of `Physics.lerpAngle`: add `2π` while below `-π`. -/
def wrapUp (d : ℚ) : ℚ :=
  if d < -piQ then wrapUp (d + 2 * piQ) else d
termination_by (⌈(-piQ - d) / (2 * piQ)⌉).toNat
decreasing_by
  have hp : (0:ℚ) < piQ := by norm_num [piQ]
  have h2 : (0:ℚ) < 2 * piQ := by linarith
  have key : (-piQ - (d + 2 * piQ)) / (2 * piQ) = (-piQ - d) / (2 * piQ) - 1 := by
    field_simp
    ring
  rw [key, Int.ceil_sub_one]
  have hpos : 0 < ⌈(-piQ - d) / (2 * piQ)⌉ :=
    Int.ceil_pos.mpr (div_pos (by linarith) h2)
  omega

/-- `Physics.lerpAngle(a, b, t)`: shortest-path angle interpolation. -/
def lerpAngle (a b t : ℚ) : ℚ :=
  let diff := wrapUp (wrapDown (b - a))
  a + diff * t

end Physics

/-- Weapon tags (string-keyed in the source: 'SHOTGUN' is the default). -/
inductive WeaponTag where
  | SHOTGUN
  | SNIPER
  | MACHINE_GUN
  deriving DecidableEq, Repr

/-- Default display names, `PLAYER_NAMES_DEFAULT[idx] || `Player ${idx+1}``. -/
def defaultPlayerName (idx : Nat) : String :=
  match idx with
  | 0 => "Player 1"
  | 1 => "Player 2"
  | 2 => "Player 3"
  | 3 => "Player 4"
  | _ => "Player " ++ toString (idx + 1)

/-- Default colors, `PLAYER_COLORS[idx] || '#ffffff'`. -/
def defaultPlayerColor (idx : Nat) : String :=
  match idx with
  | 0 => "#00d4ff"
  | 1 => "#ff6b35"
  | 2 => "#00ff88"
  | 3 => "#ff3366"
  | _ => "#ffffff"

/-- The astronaut entity, mirroring `Player` of Player.js.
`jumpGraceTimer` is `undefined` in JS until the first jump assigns it, so it
is modelled as `Option ℚ`; `currentWeapon` is likewise `undefined` until a
weapon pickup assigns it. -/
structure Player where
  id : String
  index : Nat
  name : String
  color : String
  x : ℚ
  y : ℚ
  vx : ℚ
  vy : ℚ
  radius : ℚ
  isGrounded : Bool
  groundedPlanetIndex : ℤ
  surfaceAngle : ℚ
  moveX : ℚ
  facingLeft : Bool
  aimAngle : ℚ
  health : ℚ
  maxHealth : ℚ
  alive : Bool
  kills : Nat
  deaths : Nat
  shotsFired : Nat
  shotsHit : Nat
  damageDealt : ℚ
  shootCooldown : ℚ
  shootCooldownMax : ℚ
  damageFlash : ℚ
  respawnTimer : ℚ
  respawnTime : ℚ
  invulnerable : ℚ
  jumpForce : ℚ
  canJump : Bool
  jumpCooldown : ℚ
  moveSpeed : ℚ
  airControl : ℚ
  jumpGraceTimer : Option ℚ
  currentWeapon : Option WeaponTag

namespace Player

/-- The `Player(id, playerIndex)` constructor. -/
def mk0 (id : String) (index : Nat) : Player :=
  { id := id, index := index
    name := defaultPlayerName index, color := defaultPlayerColor index
    x := 0, y := 0, vx := 0, vy := 0, radius := 12
    isGrounded := false, groundedPlanetIndex := -1, surfaceAngle := 0
    moveX := 0, facingLeft := false, aimAngle := 0
    health := 100, maxHealth := 100, alive := true
    kills := 0, deaths := 0, shotsFired := 0, shotsHit := 0, damageDealt := 0
    shootCooldown := 0, shootCooldownMax := 3/5
    damageFlash := 0, respawnTimer := 0, respawnTime := 3, invulnerable := 0
    jumpForce := 300, canJump := true, jumpCooldown := 0
    moveSpeed := 200, airControl := 80
    jumpGraceTimer := none, currentWeapon := none }

/-- `Player.takeDamage(amount, attackerId)`: returns (died, updated player).
The `attackerId` argument is unused by the method body and omitted. -/
def takeDamage (amount : ℚ) (p : Player) : Bool × Player :=
  if p.alive = false ∨ 0 < p.invulnerable then (false, p)
  else
    let h := p.health - amount
    if h ≤ 0 then
      (true, { p with health := 0, damageFlash := 1/2, alive := false
                      deaths := p.deaths + 1, respawnTimer := p.respawnTime })
    else
      (false, { p with health := h, damageFlash := 1/2 })

/-- `Player.updateTimers(dt)` as present in the source: note that
`jumpGraceTimer` is NOT decremented here (only `jumpCooldown` is). -/
def updateTimers (dt : ℚ) (p : Player) : Player :=
  { p with
    shootCooldown := if 0 < p.shootCooldown then p.shootCooldown - dt else p.shootCooldown
    damageFlash := if 0 < p.damageFlash then p.damageFlash - dt * 3 else p.damageFlash
    jumpCooldown := if 0 < p.jumpCooldown then p.jumpCooldown - dt else p.jumpCooldown
    invulnerable := if 0 < p.invulnerable then p.invulnerable - dt else p.invulnerable
    respawnTimer := if p.alive = false ∧ 0 < p.respawnTimer
                    then p.respawnTimer - dt else p.respawnTimer }

/-- `Player.canShoot()`. -/
def canShoot (p : Player) : Bool :=
  p.alive && decide (p.shootCooldown ≤ 0)

end Player

/-- Wire form produced by `Player.serialize()`. -/
structure PlayerWire where
  id : String
  idx : Nat
  n : String
  c : String
  x : ℚ
  y : ℚ
  vx : ℚ
  vy : ℚ
  gr : Bool
  sa : ℚ
  mx : ℚ
  fl : Bool
  hp : ℚ
  al : Bool
  k : Nat
  d : Nat
  df : ℚ
  rt : ℚ
  iv : Bool

namespace Player

/-- `Player.serialize()`. -/
def serialize (p : Player) : PlayerWire :=
  { id := p.id, idx := p.index, n := p.name, c := p.color
    x := round1 p.x, y := round1 p.y, vx := round1 p.vx, vy := round1 p.vy
    gr := p.isGrounded, sa := round2 p.surfaceAngle, mx := round2 p.moveX
    fl := p.facingLeft, hp := p.health, al := p.alive
    k := p.kills, d := p.deaths
    df := round2 p.damageFlash, rt := round2 p.respawnTimer
    iv := decide (0 < p.invulnerable) }

/-- `Player.applyState(data)`. -/
def applyState (data : PlayerWire) (p : Player) : Player :=
  { p with
    x := data.x, y := data.y, vx := data.vx, vy := data.vy
    isGrounded := data.gr, surfaceAngle := data.sa, moveX := data.mx
    facingLeft := data.fl, health := data.hp, alive := data.al
    kills := data.k, deaths := data.d
    damageFlash := data.df, respawnTimer := data.rt
    invulnerable := if data.iv then 1 else 0 }

/-- `Player.fromSerialized(data)`: fresh constructor, then name/color, then
`applyState`. -/
def fromSerialized (data : PlayerWire) : Player :=
  applyState data { mk0 data.id data.idx with name := data.n, color := data.c }

end Player

/-- Gravity-affected pellet, mirroring `Projectile` of Projectile.js. -/
structure Projectile where
  x : ℚ
  y : ℚ
  vx : ℚ
  vy : ℚ
  ownerId : String
  color : String
  radius : ℚ
  damage : ℚ
  lifetime : ℚ
  age : ℚ
  active : Bool

namespace Projectile

/-- The `Projectile(x, y, vx, vy, ownerId, color)` constructor. -/
def mk0 (x y vx vy : ℚ) (ownerId : String) (color : String) : Projectile :=
  { x := x, y := y, vx := vx, vy := vy, ownerId := ownerId, color := color
    radius := 3, damage := 20, lifetime := 3, age := 0, active := true }

/-- `Projectile.update(dt)`. -/
def update (dt : ℚ) (p : Projectile) : Projectile :=
  let age := p.age + dt
  { p with x := p.x + p.vx * dt, y := p.y + p.vy * dt, age := age
           active := if p.lifetime ≤ age then false else p.active }

end Projectile

/-- Wire form produced by `Projectile.serialize()`. -/
structure ProjectileWire where
  x : ℚ
  y : ℚ
  vx : ℚ
  vy : ℚ
  o : String
  c : String
  a : ℚ

namespace Projectile

/-- `Projectile.serialize()`: positions and velocities are rounded to whole
numbers, age to two decimals. -/
def serialize (p : Projectile) : ProjectileWire :=
  { x := round0 p.x, y := round0 p.y, vx := round0 p.vx, vy := round0 p.vy
    o := p.ownerId, c := p.color, a := round2 p.age }

/-- `Projectile.fromSerialized(data)`: fresh constructor (default damage,
radius and lifetime), then the wire age. -/
def fromSerialized (data : ProjectileWire) : Projectile :=
  { mk0 data.x data.y data.vx data.vy data.o data.c with age := data.a }

end Projectile

/-- Hazard entity, mirroring `Meteorite` of Meteorite.js. -/
structure Meteorite where
  x : ℚ
  y : ℚ
  vx : ℚ
  vy : ℚ
  radius : ℚ
  rotation : ℚ
  rotationSpeed : ℚ
  shape : List ℚ
  active : Bool
  lifetime : ℚ
  age : ℚ
  damage : ℚ

namespace Meteorite

/-- The irregular-shape factors: `8 + ⌊rand·4⌋` entries `0.7 + rand·0.5`. -/
def mkShape (rnd : Nat → ℚ) : List ℚ :=
  (List.range (8 + (⌊rnd 2 * 4⌋).toNat)).map (fun i => 7/10 + rnd (3 + i) * (1/2))

/-- The `Meteorite(x, y, vx, vy, radius)` constructor; `rnd` supplies the
`Math.random()` draws (rotation, spin rate, shape). -/
def mk0 (rnd : Nat → ℚ) (x y vx vy radius : ℚ) : Meteorite :=
  { x := x, y := y, vx := vx, vy := vy, radius := radius
    rotation := rnd 0 * (piQ * 2), rotationSpeed := (rnd 1 - 1/2) * 4
    shape := mkShape rnd, active := true, lifetime := 10, age := 0, damage := 50 }

/-- `Meteorite.update(dt)`. -/
def update (dt : ℚ) (mt : Meteorite) : Meteorite :=
  let age := mt.age + dt
  { mt with x := mt.x + mt.vx * dt, y := mt.y + mt.vy * dt
            rotation := mt.rotation + mt.rotationSpeed * dt, age := age
            active := if mt.lifetime ≤ age then false else mt.active }

end Meteorite

/-- Wire form produced by `Meteorite.serialize()`. -/
structure MeteoriteWire where
  x : ℚ
  y : ℚ
  vx : ℚ
  vy : ℚ
  r : ℚ
  rot : ℚ
  sh : List ℚ

namespace Meteorite

/-- `Meteorite.serialize()`: whole-number positions/velocities, two-decimal
rotation; age, damage and spin rate are not carried. -/
def serialize (mt : Meteorite) : MeteoriteWire :=
  { x := round0 mt.x, y := round0 mt.y, vx := round0 mt.vx, vy := round0 mt.vy
    r := mt.radius, rot := round2 mt.rotation, sh := mt.shape }

/-- `Meteorite.fromSerialized(data)`: fresh constructor (re-randomised spin
rate via `rnd`), then the wire rotation and shape. -/
def fromSerialized (rnd : Nat → ℚ) (data : MeteoriteWire) : Meteorite :=
  { mk0 rnd data.x data.y data.vx data.vy data.r with
      rotation := data.rot, shape := data.sh }

end Meteorite

/-- Pickup type tags (`PICKUP_TYPES` keys of Pickup.js). -/
inductive PickupType where
  | HEALTH
  | SNIPER
  | MACHINE_GUN
  | SHOTGUN
  deriving DecidableEq, Repr

/-- Spawnable item, mirroring `Pickup` of Pickup.js. -/
structure Pickup where
  id : String
  x : ℚ
  y : ℚ
  typeKey : PickupType
  radius : ℚ
  active : Bool
  baseX : ℚ
  baseY : ℚ
  time : ℚ
  surfaceAngle : ℚ

namespace Pickup

/-- The `Pickup(id, x, y, typeKey)` constructor; `rnd` supplies the random
bob phase `Math.random() * 10`. -/
def mk0 (rnd : ℚ) (id : String) (x y : ℚ) (typeKey : PickupType) : Pickup :=
  { id := id, x := x, y := y, typeKey := typeKey, radius := 15, active := true
    baseX := x, baseY := y, time := rnd * 10, surfaceAngle := 0 }

end Pickup

/-- Wire form produced by `Pickup.serialize()`. -/
structure PickupWire where
  id : String
  x : ℚ
  y : ℚ
  t : PickupType

namespace Pickup

/-- `Pickup.serialize()`: whole-number position. -/
def serialize (p : Pickup) : PickupWire :=
  { id := p.id, x := round0 p.x, y := round0 p.y, t := p.typeKey }

/-- `Pickup.fromSerialized(data)`: fresh constructor (re-randomised phase). -/
def fromSerialized (rnd : ℚ) (data : PickupWire) : Pickup :=
  mk0 rnd data.id data.x data.y data.t

end Pickup

namespace GravitySystem

/-- `surfaceThreshold` of the GravitySystem constructor. -/
def surfaceThreshold : ℚ := 8

/-- `surfaceFriction` of the GravitySystem constructor. -/
def surfaceFriction : ℚ := 17/20

/-- `player.jumpGraceTimer <= 0` of `_handlePlayerGravity`.  Before the first
jump the JS field is `undefined` and `undefined <= 0` is `false`, hence the
`none` case. -/
def canLand (p : Player) : Bool :=
  match p.jumpGraceTimer with
  | none => false
  | some g => decide (g ≤ 0)

/-- The grounded branch of `_handlePlayerGravity`: stick to the surface,
apply biome effects, walk, dampen velocity by the active friction. -/
def groundedStep (m : JsMath) (nearest : Planet) (biomeRoll : ℚ) (dt : ℚ)
    (p : Player) : Player :=
  let surf := Physics.projectToSurface m ⟨p.x, p.y⟩ nearest
  let p := { p with x := surf.x, y := surf.y }
  let p := { p with surfaceAngle := Physics.surfaceAngle m ⟨p.x, p.y⟩ nearest }
  let currentMoveSpeed := if nearest.themeKey = .desert then p.moveSpeed * (3/5) else p.moveSpeed
  let currentFriction : ℚ := if nearest.themeKey = .ice then 49/50 else surfaceFriction
  let p :=
    if nearest.themeKey = .lava ∧ biomeRoll < dt * 5 then (Player.takeDamage 1 p).2
    else if nearest.themeKey = .forest ∧ p.health < p.maxHealth ∧ biomeRoll < dt * 5 then
      { p with health := p.health + 1 }
    else p
  let p :=
    if 1/10 < |p.moveX| then
      let moveDir : ℚ := if 0 < p.moveX then 1 else -1
      let angularSpeed := currentMoveSpeed / nearest.radius * dt
      let sa := p.surfaceAngle + angularSpeed * moveDir
      let np := Planet.getSurfacePoint m nearest sa
      { p with surfaceAngle := sa, x := np.x, y := np.y
               facingLeft := decide (moveDir < 0) }
    else p
  { p with vx := p.vx * currentFriction, vy := p.vy * currentFriction }

/-- The velocity produced by the airborne branch just before clamping:
gravity integration plus the air-control term on the x component. -/
def airborneVel (accel : Vec2) (dt : ℚ) (p : Player) : Vec2 :=
  let vx := p.vx + accel.x * dt
  let vy := p.vy + accel.y * dt
  ⟨if 1/10 < |p.moveX| then vx + p.moveX * p.airControl * dt else vx, vy⟩

/-- The airborne branch of `_handlePlayerGravity`: integrate gravity and
position, apply air control, update the surface angle, clamp the velocity,
and force a grounding if inside the body once the grace timer has expired. -/
def airborneStep (m : JsMath) (nearest : Planet) (accel : Vec2) (dt : ℚ)
    (p : Player) : Player :=
  let vx := p.vx + accel.x * dt
  let vy := p.vy + accel.y * dt
  let x := p.x + vx * dt
  let y := p.y + vy * dt
  let fl := if 1/10 < |p.moveX| then decide (p.moveX < 0) else p.facingLeft
  let sa := Physics.surfaceAngle m ⟨x, y⟩ nearest
  let vel := Physics.clampVelocity m (airborneVel accel dt p)
  let p1 := { p with x := x, y := y, vx := vel.x, vy := vel.y
                     surfaceAngle := sa, facingLeft := fl }
  if canLand p && Planet.isInside m nearest p1.x p1.y then
    let surf := Physics.projectToSurface m ⟨p1.x, p1.y⟩ nearest
    { p1 with x := surf.x, y := surf.y, isGrounded := true
              vx := p1.vx * (1/5), vy := p1.vy * (1/5) }
  else p1

/-- `GravitySystem._handlePlayerGravity(player, nearestPlanet, dist, accel,
planets, dt)` (rewritten revision).  `biomeRoll` is the `Math.random()` draw
consumed by the lava/forest biome branch. -/
def handlePlayerGravity (m : JsMath) (nearest : Planet) (dist : ℚ) (accel : Vec2)
    (biomeRoll : ℚ) (dt : ℚ) (p : Player) : Player :=
  let landOk := canLand p
  let onSurface := decide (dist ≤ surfaceThreshold)
  let p :=
    if onSurface && !p.isGrounded && landOk then
      { p with isGrounded := true, groundedPlanetIndex := -1
               vx := p.vx * (3/10), vy := p.vy * (3/10) }
    else p
  if p.isGrounded then groundedStep m nearest biomeRoll dt p
  else airborneStep m nearest accel dt p

/-- The summed in-range gravitational acceleration computed at the top of
`GravitySystem.applyGravity`. -/
def totalAccel (m : JsMath) (planets : List Planet) (pos : Vec2) : Vec2 :=
  planets.foldl
    (fun acc pl =>
      if Vec2.distTo m pos pl.pos < pl.gravityRange
      then acc.add (Physics.gravityAccel m pos pl) else acc)
    Vec2.zero

/-- `GravitySystem.applyGravity` for a player (the `isGrounded !== undefined`
branch). -/
def applyGravityPlayer (m : JsMath) (planets : List Planet) (biomeRoll dt : ℚ)
    (p : Player) : Player :=
  let pos : Vec2 := ⟨p.x, p.y⟩
  match Physics.nearestPlanet m pos planets with
  | none => p
  | some (nearest, dist) =>
      handlePlayerGravity m nearest dist (totalAccel m planets pos) biomeRoll dt p

/-- `GravitySystem.applyGravity` for a simple entity (projectile/meteorite):
`v += totalAccel · dt`. -/
def applyGravitySimple (m : JsMath) (planets : List Planet) (dt : ℚ)
    (pos v : Vec2) : Vec2 :=
  let a := totalAccel m planets pos
  ⟨v.x + a.x * dt, v.y + a.y * dt⟩

/-- `GravitySystem.jump(player, nearestPlanet)` (rewritten revision):
velocity is set (not added) along the outward radial, scaled 1.5 on crystal
bodies, the grace timer starts at 0.35 s and the position is nudged outward
by `surfaceThreshold + 4`. -/
def jump (m : JsMath) (nearest : Planet) (p : Player) : Bool × Player :=
  if p.isGrounded = false then (false, p)
  else if p.canJump = false then (false, p)
  else
    let jumpDir := (Vec2.mk (p.x - nearest.x) (p.y - nearest.y)).normalize m
    let jumpMultiplier : ℚ := if nearest.themeKey = .crystal then 3/2 else 1
    (true,
     { p with
        vx := jumpDir.x * p.jumpForce * jumpMultiplier
        vy := jumpDir.y * p.jumpForce * jumpMultiplier
        isGrounded := false
        jumpGraceTimer := some (7/20)
        x := p.x + jumpDir.x * (surfaceThreshold + 4)
        y := p.y + jumpDir.y * (surfaceThreshold + 4) })

end GravitySystem

namespace WeaponSystem

/-- `WeaponSystem.fire(player, targetX, targetY, particles)`.  Returns the
mutated player and the created projectiles (the muzzle-flash particle call is
rendering-only and omitted).  `jitter i` supplies the two `Math.random()`
draws of pellet `i` (angle jitter, speed jitter). -/
def fire (m : JsMath) (jitter : Nat → ℚ × ℚ) (p : Player) (targetX targetY : ℚ) :
    Player × List Projectile :=
  if Player.canShoot p = false then (p, [])
  else
    let weapon := p.currentWeapon.getD .SHOTGUN
    let pelletCount : Nat := match weapon with
      | .SNIPER => 1 | .MACHINE_GUN => 1 | .SHOTGUN => 7
    let spreadAngle : ℚ := match weapon with
      | .SNIPER => 0 | .MACHINE_GUN => piQ / 12 | .SHOTGUN => piQ / 4
    let pelletSpeed : ℚ := match weapon with
      | .SNIPER => 2200 | .MACHINE_GUN => 1000 | .SHOTGUN => 1200
    let pColor : String := match weapon with
      | .SNIPER => "#ff3366" | .MACHINE_GUN => "#00d4ff" | .SHOTGUN => p.color
    let damage : ℚ := match weapon with
      | .SNIPER => 70 | .MACHINE_GUN => 10 | .SHOTGUN => 15
    let radius : ℚ := match weapon with
      | .SNIPER => 4 | .MACHINE_GUN => 2 | .SHOTGUN => 2
    let lifetime : ℚ := match weapon with
      | .SNIPER => 2 | .MACHINE_GUN => 3/2 | .SHOTGUN => 3/2
    let cooldownMax : ℚ := match weapon with
      | .SNIPER => 1 | .MACHINE_GUN => 3/25 | .SHOTGUN => 7/20
    let recoilForce : ℚ := match weapon with
      | .SNIPER => 400 | .MACHINE_GUN => 30 | .SHOTGUN => 150
    let p := { p with shootCooldownMax := cooldownMax, shootCooldown := cooldownMax
                      shotsFired := p.shotsFired + 1 }
    let dx := targetX - p.x
    let dy := targetY - p.y
    let baseAngle := m.atan2 dy dx
    let muzzleX := p.x + m.cos baseAngle * 30
    let muzzleY := p.y + m.sin baseAngle * 30
    let halfSpread := spreadAngle / 2
    let projectiles := (List.range pelletCount).map (fun (i : Nat) =>
      let t : ℚ := if 1 < pelletCount then (i : ℚ) / ((pelletCount : ℚ) - 1) else 1/2
      let angle := baseAngle - halfSpread + spreadAngle * t
      let finalAngle := angle + ((jitter i).1 - 1/2) * (1/20)
      let speed := pelletSpeed + ((jitter i).2 - 1/2) * 50
      { Projectile.mk0 muzzleX muzzleY (m.cos finalAngle * speed)
          (m.sin finalAngle * speed) p.id pColor with
          damage := damage, radius := radius, lifetime := lifetime })
    let p := { p with vx := p.vx - m.cos baseAngle * recoilForce
                      vy := p.vy - m.sin baseAngle * recoilForce }
    (p, projectiles)

end WeaponSystem

/-- Meteorite-spawner state, mirroring the `HazardSystem` constructor. -/
structure HazardSystem where
  spawnTimer : ℚ
  baseInterval : ℚ
  minInterval : ℚ
  escalationRate : ℚ
  gameTime : ℚ
  showerTimer : ℚ
  showerInterval : ℚ
  showerActive : Bool
  showerDuration : ℚ
  showerElapsed : ℚ
  mapRadius : ℚ

namespace HazardSystem

def mk0 : HazardSystem :=
  { spawnTimer := 0, baseInterval := 4, minInterval := 1, escalationRate := 1/20
    gameTime := 0, showerTimer := 0, showerInterval := 30, showerActive := false
    showerDuration := 5, showerElapsed := 0, mapRadius := 700 }

/-- `HazardSystem._spawnMeteorite` spawn placement: random ring angle outside
the play radius, aimed roughly at the centre with jitter. -/
def spawnMeteorite (m : JsMath) (rnd : Nat → ℚ) (st : HazardSystem) : Meteorite :=
  let angle := rnd 0 * (piQ * 2)
  let spawnDist := st.mapRadius + 100
  let x := m.cos angle * spawnDist
  let y := m.sin angle * spawnDist
  let targetAngle := angle + piQ + (rnd 1 - 1/2) * (4/5)
  let speed := 100 + rnd 2 * 150
  let radius := 10 + rnd 3 * 15
  Meteorite.mk0 (fun i => rnd (4 + i))
    x y (m.cos targetAngle * speed) (m.sin targetAngle * speed) radius

/-- The cap logic of `_spawnMeteorite`: a spawn is simply dropped once more
than 15 meteorites are active (memoryless). -/
def trySpawn (met : Meteorite) (meteorites : List Meteorite) : List Meteorite :=
  if 15 < meteorites.length then meteorites else meteorites ++ [met]

/-- `HazardSystem.update(dt, meteorites, planets)`. -/
def update (m : JsMath) (rnd : Nat → ℚ) (st : HazardSystem) (dt : ℚ)
    (meteorites : List Meteorite) : HazardSystem × List Meteorite :=
  let gameTime := st.gameTime + dt
  let spawnTimer := st.spawnTimer - dt
  let showerTimer := st.showerTimer + dt
  let interval := max st.minInterval (st.baseInterval - gameTime * st.escalationRate)
  let trig := decide (st.showerInterval ≤ showerTimer)
  let showerActive := if trig then true else st.showerActive
  let showerElapsed := if trig then 0 else st.showerElapsed
  let showerTimer := if trig then 0 else showerTimer
  let showerElapsed := if showerActive then showerElapsed + dt else showerElapsed
  let showerActive :=
    if showerActive then decide (showerElapsed < st.showerDuration) else showerActive
  let effectiveInterval : ℚ := if showerActive then 3/10 else interval
  let st := { st with gameTime := gameTime, showerTimer := showerTimer
                      showerActive := showerActive, showerElapsed := showerElapsed }
  if spawnTimer ≤ 0 then
    ({ st with spawnTimer := effectiveInterval },
     trySpawn (spawnMeteorite m rnd st) meteorites)
  else
    ({ st with spawnTimer := spawnTimer }, meteorites)

end HazardSystem

/-- Discrete combat events produced by `CollisionSystem.update`.  The
`killerName` of a projectile kill is `attacker?.name` and may be absent. -/
inductive GameEvent where
  | kill (killerId : String) (victimId : String)
      (killerName : Option String) (victimName : String)
  | hit (targetId : String) (damage : ℚ)
  | meteoriteImpact (x y : ℚ)

namespace GameEvent

def isHit : GameEvent → Bool
  | hit _ _ => true
  | _ => false

end GameEvent

/-- Replace the first element satisfying `pred` (the JS
`players.find(...)` + in-place mutation idiom). -/
def updateFirst (pred : α → Bool) (f : α → α) : List α → List α
  | [] => []
  | x :: xs => if pred x then f x :: xs else x :: updateFirst pred f xs

namespace CollisionSystem

/-- Target filter of the projectile↔player loop: alive, not the owner, not
invulnerable, and overlapping (player radius padded by 4). -/
def projTargets (proj : Projectile) (p : Player) : Bool :=
  p.alive && !(p.id == proj.ownerId) && !(decide (0 < p.invulnerable)) &&
    Physics.circleCollision proj.x proj.y proj.radius p.x p.y (p.radius + 4)

/-- Damage the first matching target (the loop `break`s after a hit);
returns the updated list and `(victimId, victimName, died)` when a target
was hit. -/
def damageFirstTarget (proj : Projectile) :
    List Player → List Player × Option (String × String × Bool)
  | [] => ([], none)
  | p :: rest =>
    if projTargets proj p then
      let r := Player.takeDamage proj.damage p
      (r.2 :: rest, some (p.id, p.name, r.1))
    else
      let r := damageFirstTarget proj rest
      (p :: r.1, r.2)

/-- Credit the attacker found by `players.find(p => p.id === ownerId)`:
hit/damage stats always, a kill only when the target died. -/
def creditAttacker (died : Bool) (dmg : ℚ) (ownerId : String)
    (ps : List Player) : List Player :=
  updateFirst (fun a => a.id == ownerId)
    (fun a => { a with shotsHit := a.shotsHit + 1, damageDealt := a.damageDealt + dmg
                       kills := if died then a.kills + 1 else a.kills }) ps

/-- One iteration of the projectile↔player loop body for a single projectile. -/
def processProjectile (ps : List Player) (proj : Projectile) :
    List Player × Projectile × List GameEvent :=
  if proj.active = false then (ps, proj, [])
  else
    let r := damageFirstTarget proj ps
    match r.2 with
    | none => (r.1, proj, [])
    | some (vid, vname, died) =>
      let attackerName := (r.1.find? (fun a => a.id == proj.ownerId)).map (fun a => a.name)
      let ps2 := creditAttacker died proj.damage proj.ownerId r.1
      let ev := if died then GameEvent.kill proj.ownerId vid attackerName vname
                else GameEvent.hit vid proj.damage
      (ps2, { proj with active := false }, [ev])

/-- Projectile↔player pass.  The JS loop iterates the projectile array from
the last index down, so later projectiles are processed first. -/
def projPlayerPass (ps : List Player) :
    List Projectile → List Player × List Projectile × List GameEvent
  | [] => (ps, [], [])
  | proj :: rest =>
    let r1 := projPlayerPass ps rest
    let r2 := processProjectile r1.1 proj
    (r2.1, r2.2.1 :: r1.2.1, r1.2.2 ++ r2.2.2)

/-- Projectile↔planet: deactivate any projectile inside a body. -/
def projPlanetHit (m : JsMath) (planets : List Planet) (proj : Projectile) : Projectile :=
  if proj.active && planets.any (fun pl => Planet.isInside m pl proj.x proj.y)
  then { proj with active := false } else proj

/-- Meteorite↔player inner loop: damage every overlapping alive,
non-invulnerable player (no break); a kill event only on death, no hit
event otherwise.  The meteorite itself is not modified. -/
def metDamagePlayers (mt : Meteorite) : List Player → List Player × List GameEvent
  | [] => ([], [])
  | p :: rest =>
    if (p.alive && !(decide (0 < p.invulnerable))) &&
        Physics.circleCollision mt.x mt.y mt.radius p.x p.y (p.radius + 2) then
      let r := Player.takeDamage mt.damage p
      let evs := if r.1 then
          [GameEvent.kill "__meteorite" p.id (some "☄️ Meteorite") p.name] else []
      let rr := metDamagePlayers mt rest
      (r.2 :: rr.1, evs ++ rr.2)
    else
      let rr := metDamagePlayers mt rest
      (p :: rr.1, rr.2)

/-- Meteorite↔player pass over all active meteorites, in order. -/
def metPlayerPass (ps : List Player) : List Meteorite → List Player × List GameEvent
  | [] => (ps, [])
  | mt :: rest =>
    if mt.active = false then metPlayerPass ps rest
    else
      let r := metDamagePlayers mt ps
      let rr := metPlayerPass r.1 rest
      (rr.1, r.2 ++ rr.2)

/-- Meteorite↔planet body for one meteorite: deactivate and emit
`meteorite_impact` on the first overlapping planet (half-radius test). -/
def metPlanetHitOne (_m : JsMath) (planets : List Planet) (mt : Meteorite) :
    Meteorite × List GameEvent :=
  if mt.active && planets.any
      (fun pl => Physics.circleCollision mt.x mt.y (mt.radius * (1/2)) pl.x pl.y pl.radius)
  then ({ mt with active := false }, [GameEvent.meteoriteImpact mt.x mt.y])
  else (mt, [])

/-- Meteorite↔planet pass (the JS loop iterates from the last index down). -/
def metPlanetPass (m : JsMath) (planets : List Planet) :
    List Meteorite → List Meteorite × List GameEvent
  | [] => ([], [])
  | mt :: rest =>
    let rr := metPlanetPass m planets rest
    let r := metPlanetHitOne m planets mt
    (r.1 :: rr.1, rr.2 ++ r.2)

/-- Result of `CollisionSystem.update`. -/
structure Result where
  players : List Player
  projectiles : List Projectile
  meteorites : List Meteorite
  events : List GameEvent

/-- `CollisionSystem.update(players, projectiles, meteorites, planets,
particles)`: the four passes in order, then removal of inactive projectiles
and meteorites (particle emissions are rendering-only and omitted). -/
def update (m : JsMath) (players : List Player) (projectiles : List Projectile)
    (meteorites : List Meteorite) (planets : List Planet) : Result :=
  let r1 := projPlayerPass players projectiles
  let projs2 := r1.2.1.map (projPlanetHit m planets)
  let r3 := metPlayerPass r1.1 meteorites
  let r4 := metPlanetPass m planets meteorites
  { players := r3.1
    projectiles := projs2.filter (fun pr => pr.active)
    meteorites := r4.1.filter (fun mt => mt.active)
    events := r1.2.2 ++ r3.2 ++ r4.2 }

end CollisionSystem

namespace Game

/-- Per-planet gravity step of the host tick's projectile loop:
`v += a·dt` when the planet is in range. -/
def projGravityStep (m : JsMath) (dt : ℚ) (pr : Projectile) (pl : Planet) :
    Projectile :=
  let pos : Vec2 := ⟨pr.x, pr.y⟩
  if Vec2.distTo m pos pl.pos < pl.gravityRange then
    let accel := Physics.gravityAccel m pos pl
    { pr with vx := pr.vx + accel.x * dt, vy := pr.vy + accel.y * dt }
  else pr

/-- Projectile gravity integration of the host tick (main.js `_updateHost`):
per in-range planet `v += a·dt`, then `Projectile.update(dt)`. -/
def hostProjectileTick (m : JsMath) (planets : List Planet) (dt : ℚ)
    (proj : Projectile) : Projectile :=
  if proj.active = false then proj
  else Projectile.update dt (planets.foldl (projGravityStep m dt) proj)

/-- Per-planet gravity step of the host tick's meteorite loop:
`v += a·dt·0.5` when the planet is in range. -/
def metGravityStep (m : JsMath) (dt : ℚ) (mr : Meteorite) (pl : Planet) :
    Meteorite :=
  let pos : Vec2 := ⟨mr.x, mr.y⟩
  if Vec2.distTo m pos pl.pos < pl.gravityRange then
    let accel := Physics.gravityAccel m pos pl
    { mr with vx := mr.vx + accel.x * dt * (1/2)
              vy := mr.vy + accel.y * dt * (1/2) }
  else mr

/-- Meteorite gravity integration of the host tick (main.js `_updateHost`):
per in-range planet `v += a·dt·0.5`, then `Meteorite.update(dt)`. -/
def hostMeteoriteTick (m : JsMath) (planets : List Planet) (dt : ℚ)
    (mt : Meteorite) : Meteorite :=
  if mt.active = false then mt
  else Meteorite.update dt (planets.foldl (metGravityStep m dt) mt)

end Game

/-- A host state snapshot (`_serializeGameState` payload). -/
structure GameState where
  players : List PlayerWire
  projectiles : List ProjectileWire
  meteorites : List MeteoriteWire
  timer : ℚ
  time : ℚ

/-- A buffered snapshot entry tagged with local receipt time (ms). -/
structure Snap where
  state : GameState
  timestamp : ℚ

namespace ClientState

/-- `_interpDelay` (ms) of the rewritten ClientState. -/
def INTERP_DELAY : ℚ := 100

/-- Snapshot receipt: push, then evict the oldest entry once more than 10
are buffered. -/
def receiveState (buf : List Snap) (s : Snap) : List Snap :=
  let b := buf ++ [s]
  if 10 < b.length then b.drop 1 else b

/-- The bracketing scan of `getInterpolatedState`: the first adjacent pair
whose timestamps straddle the render time. -/
def findBracket (rt : ℚ) : List Snap → Option (Snap × Snap)
  | a :: b :: rest =>
    if decide (a.timestamp ≤ rt) && decide (rt ≤ b.timestamp) then some (a, b)
    else findBracket rt (b :: rest)
  | _ => none

/-- Per-player interpolation of `getInterpolatedState`: position lerped,
surface angle shortest-path lerped, against the matching player of the
`from` snapshot (players only present in `to` are left as-is). -/
def interpPlayers (fromPs toPs : List PlayerWire) (ct : ℚ) : List PlayerWire :=
  toPs.map (fun tp =>
    match fromPs.find? (fun fp => fp.id == tp.id) with
    | some fp =>
      { tp with x := Physics.lerp fp.x tp.x ct, y := Physics.lerp fp.y tp.y ct
                sa := Physics.lerpAngle fp.sa tp.sa ct }
    | none => tp)

/-- `ClientState.getInterpolatedState()` (rewritten revision).  The JS
`JSON.parse(JSON.stringify(to.state))` deep copy is the identity on the
value model. -/
def getInterpolatedState (buf : List Snap) (now : ℚ) : Option GameState :=
  if buf.length < 2 then (buf.getLast?).map (fun s => s.state)
  else
    let renderTime := now - INTERP_DELAY
    match findBracket renderTime buf with
    | none => (buf.getLast?).map (fun s => s.state)
    | some (f, t) =>
      let range := t.timestamp - f.timestamp
      let tt := if 0 < range then (renderTime - f.timestamp) / range else 0
      let ct := max 0 (min 1 tt)
      some { t.state with players := interpPlayers f.state.players t.state.players ct }

end ClientState

/-!  Spec-side definitions (written from the claims' wording, for
comparison against the code-side definitions above) and concrete fixtures
used by witnesses and counterexamples. -/

/-- Spec-side formula for the gravity applied to non-player entities: the
vector sum of the gravitational accelerations of all bodies whose
`gravityRange` exceeds the current distance. -/
def sumInRangeAccel (m : JsMath) (planets : List Planet) (pos : Vec2) : Vec2 :=
  ((planets.filter (fun pl => decide (Vec2.distTo m pos pl.pos < pl.gravityRange))).map
    (Physics.gravityAccel m pos)).foldr Vec2.add Vec2.zero

namespace ClientState

/-- Spec-side bracketing: the first pair of adjacent buffered snapshots whose
timestamps straddle the render time. -/
def specBracket (rt : ℚ) (buf : List Snap) : Option (Snap × Snap) :=
  (buf.zip buf.tail).find?
    (fun ab => decide (ab.1.timestamp ≤ rt) && decide (rt ≤ ab.2.timestamp))

/-- Spec-side interpolated render state: if no pair of adjacent snapshots
brackets the render time (in particular if fewer than two are buffered),
the newest available snapshot unmodified; otherwise each player's position
linearly and its surface angle shortest-path interpolated at the clamped
fractional position of the render time in the bracketing interval. -/
def specInterpolated (buf : List Snap) (now : ℚ) : Option GameState :=
  let rt := now - INTERP_DELAY
  match specBracket rt buf with
  | none => (buf.getLast?).map (fun s => s.state)
  | some (f, t) =>
    let range := t.timestamp - f.timestamp
    let frac := if 0 < range then (rt - f.timestamp) / range else 0
    let ct := max 0 (min 1 frac)
    some { t.state with players := interpPlayers f.state.players t.state.players ct }

end ClientState

/-- A `JsMath` table exact at the points the concrete fixtures evaluate it:
`√10404 = 102`, `√(121/32400) = 11/180`, `√90000 = 300`, `cos 0 = 1`,
`sin 0 = 0`, and `atan2 0 10 = 0`. -/
def mathTable : JsMath :=
  { sqrt := fun q =>
      if q = 10404 then 102
      else if q = 121/32400 then 11/180
      else if q = 90000 then 300
      else 0
    cos := fun q => if q = 0 then 1 else 0
    sin := fun _ => 0
    atan2 := fun _ _ => 0 }

/-- Crystal-biome body of radius 100 at the origin. -/
def planetJumpEx : Planet := Planet.mk0 0 0 100 .crystal

/-- A grounded player standing on `planetJumpEx` at angle 0. -/
def playerJumpEx : Player := { Player.mk0 "host" 0 with x := 102, isGrounded := true }

/-- A forest-biome body of radius 100 (mass 150, gravity range 500). -/
def planetGravEx : Planet := Planet.mk0 0 0 100 .forest

/-- An airborne player at distance 300 from `planetGravEx`. -/
def playerAirEx : Player := { Player.mk0 "host" 0 with x := 300 }

/-- A meteorite at rest at distance 300 from `planetGravEx` (all random
draws zero). -/
def metGravEx : Meteorite := Meteorite.mk0 (fun _ => 0) 300 0 0 0 15

/-- A meteorite overlapping the default player spawn position. -/
def metOverlapEx : Meteorite := Meteorite.mk0 (fun _ => 0) 0 10 0 0 15

/-- Three players stacked at the origin; the first is the projectile owner. -/
def stackedPlayersEx : List Player :=
  [Player.mk0 "A" 0, Player.mk0 "B" 1, Player.mk0 "C" 2]

/-- A projectile owned by player "A", sitting exactly on the stack. -/
def projStackedEx : Projectile := Projectile.mk0 0 0 0 0 "A" "#ffdd44"

/-- Wire player for the interpolation fixture. -/
def pw0 : PlayerWire :=
  { id := "host", idx := 0, n := "Player 1", c := "#00d4ff"
    x := 0, y := 0, vx := 0, vy := 0, gr := true, sa := 0, mx := 0
    fl := false, hp := 100, al := true, k := 0, d := 0, df := 0, rt := 0
    iv := false }

/-- Snapshot at receipt time 0 with the player at x = 0. -/
def snapA : Snap :=
  { state := { players := [pw0], projectiles := [], meteorites := []
               timer := 180, time := 0 }
    timestamp := 0 }

/-- Snapshot at receipt time 100 with the player at x = 10. -/
def snapB : Snap :=
  { state := { players := [{ pw0 with x := 10 }], projectiles := []
               meteorites := [], timer := 180, time := 0 }
    timestamp := 100 }

/-- A sniper round at x = 0.4: its boosted damage and sub-decimal position
are both lost by the wire cycle. -/
def projC6Ex : Projectile :=
  { Projectile.mk0 (2/5) 0 0 0 "A" "#aaddff" with damage := 70 }

/-!  Helper lemmas. -/

theorem Vec2.addC (a b : Vec2) : Vec2.add a b = Vec2.add b a := by
  simp only [Vec2.add, Vec2.mk.injEq]
  constructor <;> ring

theorem Vec2.addA (a b c : Vec2) :
    Vec2.add (Vec2.add a b) c = Vec2.add a (Vec2.add b c) := by
  simp only [Vec2.add, Vec2.mk.injEq]
  constructor <;> ring

theorem Vec2.addZ (a : Vec2) : Vec2.add a Vec2.zero = a := by
  simp [Vec2.add, Vec2.zero]

theorem Player.updateTimers_jumpGraceTimer (dt : ℚ) (p : Player) :
    (Player.updateTimers dt p).jumpGraceTimer = p.jumpGraceTimer := rfl

theorem GravitySystem.canLand_eq (p : Player) :
    GravitySystem.canLand p =
      (match p.jumpGraceTimer with
       | none => false
       | some g => decide (g ≤ 0)) := rfl

/-!  C10. -/

/-- C10: `Player.takeDamage` called on a dead (`alive = false`) or
invulnerable (`invulnerable > 0`) player returns `false` and leaves every
field unchanged, for any damage amount; and a dead player can never shoot
(`canShoot` is false whenever `alive` is false). -/
theorem c10_dead_or_invulnerable_damage_ignored (p : Player) (amount : ℚ)
    (h : p.alive = false ∨ 0 < p.invulnerable) :
    Player.takeDamage amount p = (false, p) ∧
    (p.alive = false → Player.canShoot p = false) := by
  refine ⟨?_, ?_⟩
  · simp only [Player.takeDamage, if_pos h]
  · intro ha
    simp [Player.canShoot, ha]

/-- Witness for C10 at a concrete dead player and damage 9999. -/
theorem c10_witness :
    Player.takeDamage 9999 { Player.mk0 "host" 0 with alive := false }
      = (false, { Player.mk0 "host" 0 with alive := false }) ∧
    Player.canShoot { Player.mk0 "host" 0 with alive := false } = false := by
  have h := c10_dead_or_invulnerable_damage_ignored
      { Player.mk0 "host" 0 with alive := false } 9999 (Or.inl rfl)
  exact ⟨h.1, h.2 rfl⟩

/-!  C1. -/

/-- C1 (code bug): on the crystal body, `GravitySystem.jump` does set the
velocity (not additively) to 1.5·jumpForce outward, clears `isGrounded`,
nudges the position 12 units outward past the 8-unit threshold and starts
the 0.35 s grace timer — but the `Player.updateTimers` present in the source
never decrements `jumpGraceTimer`, so after any number of timer ticks the
grace timer still reads 0.35 and `canLand` is still `false`: landing never
becomes possible again, contrary to the claimed expiry at 0.35 s of
simulation time. -/
theorem c1_jump_grace_never_expires :
    (GravitySystem.jump mathTable planetJumpEx playerJumpEx).1 = true ∧
    ((GravitySystem.jump mathTable planetJumpEx playerJumpEx).2.isGrounded = false ∧
     (GravitySystem.jump mathTable planetJumpEx playerJumpEx).2.vx = 450 ∧
     (GravitySystem.jump mathTable planetJumpEx playerJumpEx).2.vy = 0 ∧
     (GravitySystem.jump mathTable planetJumpEx playerJumpEx).2.x = 114 ∧
     (GravitySystem.jump mathTable planetJumpEx playerJumpEx).2.jumpGraceTimer
       = some (7/20)) ∧
    (∀ n : ℕ,
      ((Player.updateTimers (1/60))^[n]
          (GravitySystem.jump mathTable planetJumpEx playerJumpEx).2).jumpGraceTimer
        = some (7/20) ∧
      GravitySystem.canLand
        ((Player.updateTimers (1/60))^[n]
          (GravitySystem.jump mathTable planetJumpEx playerJumpEx).2) = false) := by
  have hgrace : ∀ (n : ℕ) (q : Player),
      ((Player.updateTimers (1/60))^[n] q).jumpGraceTimer = q.jumpGraceTimer := by
    intro n
    induction n with
    | zero => intro q; rfl
    | succ k ih =>
      intro q
      rw [Function.iterate_succ_apply, ih, Player.updateTimers_jumpGraceTimer]
  have key : GravitySystem.jump mathTable planetJumpEx playerJumpEx =
      (true, { playerJumpEx with
               vx := 450, vy := 0, isGrounded := false,
               jumpGraceTimer := some (7/20), x := 114, y := 0 }) := by
    simp only [GravitySystem.jump, GravitySystem.surfaceThreshold, playerJumpEx,
      planetJumpEx, Planet.mk0, Player.mk0, mathTable, Vec2.normalize, Vec2.len]
    norm_num
  refine ⟨by rw [key], ⟨by rw [key], by rw [key], by rw [key], by rw [key],
    by rw [key]⟩, ?_⟩
  intro n
  have h2 : ((Player.updateTimers (1/60))^[n]
      (GravitySystem.jump mathTable planetJumpEx playerJumpEx).2).jumpGraceTimer
      = some (7/20) := by
    rw [hgrace n, key]
  refine ⟨h2, ?_⟩
  rw [GravitySystem.canLand_eq, h2]
  norm_num

/-!  C2. -/

theorem Vec2.sqLen_nonneg (a : Vec2) : 0 ≤ Vec2.sqLen a := by
  simp only [Vec2.sqLen]
  nlinarith [sq_nonneg a.x, sq_nonneg a.y]

/-- `Physics.clampVelocity` bounds the squared speed by `MAX_VELOCITY²`,
provided the supplied square root is exact at the evaluated point. -/
theorem clampVelocity_sqLen_le (m : JsMath) (w : Vec2)
    (hsq : m.sqrt (Vec2.sqLen w) * m.sqrt (Vec2.sqLen w) = Vec2.sqLen w)
    (hpos : 0 ≤ m.sqrt (Vec2.sqLen w)) :
    Vec2.sqLen (Physics.clampVelocity m w)
      ≤ Physics.MAX_VELOCITY * Physics.MAX_VELOCITY := by
  have hlen : Vec2.len m w = m.sqrt (Vec2.sqLen w) := rfl
  unfold Physics.clampVelocity
  rw [hlen]
  by_cases hc : Physics.MAX_VELOCITY < m.sqrt (Vec2.sqLen w)
  · simp only [hc, if_true, Vec2.normalize, Vec2.scale]
    rw [hlen]
    by_cases hz : m.sqrt (Vec2.sqLen w) = 0
    · simp only [hz, if_pos rfl]
      simp [Vec2.sqLen, Physics.MAX_VELOCITY]
    · simp only [if_neg hz]
      have key : Vec2.sqLen
          ⟨w.x / m.sqrt (Vec2.sqLen w) * Physics.MAX_VELOCITY,
           w.y / m.sqrt (Vec2.sqLen w) * Physics.MAX_VELOCITY⟩
          = Physics.MAX_VELOCITY * Physics.MAX_VELOCITY := by
        simp only [Vec2.sqLen] at hsq hz ⊢
        field_simp
        linear_combination (- Physics.MAX_VELOCITY ^ 2) * hsq
      exact le_of_eq key
  · push_neg at hc
    simp only [if_neg (not_lt.mpr hc)]
    calc Vec2.sqLen w = m.sqrt (Vec2.sqLen w) * m.sqrt (Vec2.sqLen w) := hsq.symm
    _ ≤ Physics.MAX_VELOCITY * Physics.MAX_VELOCITY := by nlinarith

/-- The airborne branch of `_handlePlayerGravity` leaves the squared speed
at most `MAX_VELOCITY²`, provided the square root consulted by the clamp is
exact at the evaluated point. -/
theorem airborneStep_sqLen_le (m : JsMath) (nearest : Planet) (accel : Vec2)
    (dt : ℚ) (p : Player)
    (hsq : m.sqrt (Vec2.sqLen (GravitySystem.airborneVel accel dt p)) *
             m.sqrt (Vec2.sqLen (GravitySystem.airborneVel accel dt p))
           = Vec2.sqLen (GravitySystem.airborneVel accel dt p))
    (hpos : 0 ≤ m.sqrt (Vec2.sqLen (GravitySystem.airborneVel accel dt p))) :
    Vec2.sqLen ⟨(GravitySystem.airborneStep m nearest accel dt p).vx,
                (GravitySystem.airborneStep m nearest accel dt p).vy⟩
      ≤ Physics.MAX_VELOCITY * Physics.MAX_VELOCITY := by
  have hb := clampVelocity_sqLen_le m (GravitySystem.airborneVel accel dt p) hsq hpos
  unfold GravitySystem.airborneStep
  dsimp only
  set vel := Physics.clampVelocity m (GravitySystem.airborneVel accel dt p) with hvel
  by_cases hre : (GravitySystem.canLand p && Planet.isInside m nearest
      (p.x + (p.vx + accel.x * dt) * dt) (p.y + (p.vy + accel.y * dt) * dt)) = true
  · rw [if_pos hre]
    dsimp only
    have h5 : Vec2.sqLen ⟨vel.x * (1/5), vel.y * (1/5)⟩ ≤ Vec2.sqLen vel := by
      simp only [Vec2.sqLen]
      nlinarith [sq_nonneg vel.x, sq_nonneg vel.y]
    exact le_trans h5 hb
  · rw [if_neg hre]
    dsimp only
    exact hb

/-- C2 counterexample: a projectile moving at the sniper muzzle speed 2200
(with no body in range) still moves at 2200 > `MAX_VELOCITY = 800` after its
airborne integration step of the host tick — projectile and meteorite
velocities are never clamped, refuting the claim for non-player entities. -/
theorem c2_counterexample :
    Physics.MAX_VELOCITY * Physics.MAX_VELOCITY <
      Vec2.sqLen ⟨(Game.hostProjectileTick mathTable [] (1/60)
                     (Projectile.mk0 0 0 2200 0 "host" "#ffdd44")).vx,
                  (Game.hostProjectileTick mathTable [] (1/60)
                     (Projectile.mk0 0 0 2200 0 "host" "#ffdd44")).vy⟩ := by
  norm_num [Game.hostProjectileTick, Projectile.mk0, Projectile.update,
    Vec2.sqLen, Physics.MAX_VELOCITY]

/-- C2 (amended): after an airborne integration step of
`_handlePlayerGravity` a *player's* squared speed is at most
`MAX_VELOCITY²` (the clamp), provided the square root consulted by the
clamp is exact there; projectiles and meteorites are not clamped (see the
counterexample). -/
theorem c2_player_airborne_velocity_clamped (m : JsMath) (nearest : Planet)
    (dist : ℚ) (accel : Vec2) (biomeRoll dt : ℚ) (p : Player)
    (hg : p.isGrounded = false)
    (hland : ¬ (dist ≤ GravitySystem.surfaceThreshold ∧ GravitySystem.canLand p = true))
    (hsq : m.sqrt (Vec2.sqLen (GravitySystem.airborneVel accel dt p)) *
             m.sqrt (Vec2.sqLen (GravitySystem.airborneVel accel dt p))
           = Vec2.sqLen (GravitySystem.airborneVel accel dt p))
    (hpos : 0 ≤ m.sqrt (Vec2.sqLen (GravitySystem.airborneVel accel dt p))) :
    Vec2.sqLen
      ⟨(GravitySystem.handlePlayerGravity m nearest dist accel biomeRoll dt p).vx,
       (GravitySystem.handlePlayerGravity m nearest dist accel biomeRoll dt p).vy⟩
      ≤ Physics.MAX_VELOCITY * Physics.MAX_VELOCITY := by
  have hstep : GravitySystem.handlePlayerGravity m nearest dist accel biomeRoll dt p
      = GravitySystem.airborneStep m nearest accel dt p := by
    unfold GravitySystem.handlePlayerGravity
    dsimp only
    split
    · rename_i h
      exfalso
      simp only [Bool.and_eq_true, decide_eq_true_eq] at h
      exact hland ⟨h.1.1, h.2⟩
    · rw [hg]
      simp
  rw [hstep]
  exact airborneStep_sqLen_le m nearest accel dt p hsq hpos

/-- Witness for C2 (amended) at a concrete airborne player. -/
theorem c2_witness :
    Vec2.sqLen
      ⟨(GravitySystem.handlePlayerGravity mathTable planetGravEx 200 ⟨-11/3, 0⟩ 0
          (1/60) playerAirEx).vx,
       (GravitySystem.handlePlayerGravity mathTable planetGravEx 200 ⟨-11/3, 0⟩ 0
          (1/60) playerAirEx).vy⟩
      ≤ Physics.MAX_VELOCITY * Physics.MAX_VELOCITY := by
  apply c2_player_airborne_velocity_clamped
  · rfl
  · intro h
    have h8 := h.1
    norm_num [GravitySystem.surfaceThreshold] at h8
  · norm_num [mathTable, GravitySystem.airborneVel, Vec2.sqLen, playerAirEx, Player.mk0]
  · norm_num [mathTable, GravitySystem.airborneVel, Vec2.sqLen, playerAirEx, Player.mk0]

/-!  C4. -/

theorem sumInRangeAccel_nil (m : JsMath) (pos : Vec2) :
    sumInRangeAccel m [] pos = Vec2.zero := rfl

theorem sumInRangeAccel_cons (m : JsMath) (pl : Planet) (rest : List Planet)
    (pos : Vec2) :
    sumInRangeAccel m (pl :: rest) pos =
      (if Vec2.distTo m pos pl.pos < pl.gravityRange
       then Vec2.add (Physics.gravityAccel m pos pl) (sumInRangeAccel m rest pos)
       else sumInRangeAccel m rest pos) := by
  by_cases hin : Vec2.distTo m pos pl.pos < pl.gravityRange
  · simp [sumInRangeAccel, hin]
  · simp [sumInRangeAccel, hin]

/-- The accumulating in-range fold of `GravitySystem.applyGravity` computes
the vector sum of the in-range accelerations. -/
theorem totalAccel_eq_sum (m : JsMath) (planets : List Planet) (pos : Vec2) :
    GravitySystem.totalAccel m planets pos = sumInRangeAccel m planets pos := by
  have key : ∀ (l : List Planet) (acc : Vec2),
      l.foldl
        (fun a pl =>
          if Vec2.distTo m pos pl.pos < pl.gravityRange
          then a.add (Physics.gravityAccel m pos pl) else a)
        acc
      = acc.add (sumInRangeAccel m l pos) := by
    intro l
    induction l with
    | nil =>
      intro acc
      simp [sumInRangeAccel_nil, Vec2.addZ]
    | cons pl rest ih =>
      intro acc
      by_cases hin : Vec2.distTo m pos pl.pos < pl.gravityRange
      · simp only [List.foldl_cons, if_pos hin, ih, sumInRangeAccel_cons,
          Vec2.addA]
      · simp only [List.foldl_cons, if_neg hin, ih, sumInRangeAccel_cons]
  have := key planets Vec2.zero
  unfold GravitySystem.totalAccel
  rw [this]
  cases sumInRangeAccel m planets pos
  simp [Vec2.add, Vec2.zero]

/-- The host tick's projectile gravity loop accumulates exactly the in-range
acceleration sum. -/
theorem projGravityFold (m : JsMath) (dt : ℚ) (planets : List Planet)
    (pr : Projectile) :
    planets.foldl (Game.projGravityStep m dt) pr =
      { pr with
        vx := pr.vx + (sumInRangeAccel m planets ⟨pr.x, pr.y⟩).x * dt
        vy := pr.vy + (sumInRangeAccel m planets ⟨pr.x, pr.y⟩).y * dt } := by
  induction planets generalizing pr with
  | nil =>
    cases pr
    simp [sumInRangeAccel_nil, Vec2.zero]
  | cons pl rest ih =>
    simp only [List.foldl_cons]
    by_cases hin : Vec2.distTo m ⟨pr.x, pr.y⟩ pl.pos < pl.gravityRange
    · have hstep : Game.projGravityStep m dt pr pl =
          { pr with vx := pr.vx + (Physics.gravityAccel m ⟨pr.x, pr.y⟩ pl).x * dt
                    vy := pr.vy + (Physics.gravityAccel m ⟨pr.x, pr.y⟩ pl).y * dt } := by
        unfold Game.projGravityStep
        rw [if_pos hin]
      rw [hstep, ih]
      rw [sumInRangeAccel_cons, if_pos hin]
      cases pr
      simp only [Vec2.add]
      simp
      constructor <;> ring
    · have hstep : Game.projGravityStep m dt pr pl = pr := by
        unfold Game.projGravityStep
        rw [if_neg hin]
      rw [hstep, ih, sumInRangeAccel_cons, if_neg hin]

/-- The host tick's meteorite gravity loop accumulates exactly half the
in-range acceleration sum. -/
theorem metGravityFold (m : JsMath) (dt : ℚ) (planets : List Planet)
    (mr : Meteorite) :
    planets.foldl (Game.metGravityStep m dt) mr =
      { mr with
        vx := mr.vx + (sumInRangeAccel m planets ⟨mr.x, mr.y⟩).x * dt * (1/2)
        vy := mr.vy + (sumInRangeAccel m planets ⟨mr.x, mr.y⟩).y * dt * (1/2) } := by
  induction planets generalizing mr with
  | nil =>
    cases mr
    simp [sumInRangeAccel_nil, Vec2.zero]
  | cons pl rest ih =>
    simp only [List.foldl_cons]
    by_cases hin : Vec2.distTo m ⟨mr.x, mr.y⟩ pl.pos < pl.gravityRange
    · have hstep : Game.metGravityStep m dt mr pl =
          { mr with vx := mr.vx + (Physics.gravityAccel m ⟨mr.x, mr.y⟩ pl).x * dt * (1/2)
                    vy := mr.vy + (Physics.gravityAccel m ⟨mr.x, mr.y⟩ pl).y * dt * (1/2) } := by
        unfold Game.metGravityStep
        rw [if_pos hin]
      rw [hstep, ih]
      rw [sumInRangeAccel_cons, if_pos hin]
      cases mr
      simp only [Vec2.add]
      simp
      constructor <;> ring
    · have hstep : Game.metGravityStep m dt mr pl = mr := by
        unfold Game.metGravityStep
        rw [if_neg hin]
      rw [hstep, ih, sumInRangeAccel_cons, if_neg hin]

/-- C4 (amended): for every active projectile the host tick integrates
exactly `v += a·dt`, where `a` is the vector sum of the accelerations of
all bodies whose `gravityRange` exceeds the current distance, and then
advances the position by the updated velocity; for every active meteorite
the same loop applies the acceleration scaled by 0.5 (`v += a·dt·0.5`) —
not the claimed unscaled `a·dt`; the `GravitySystem.applyGravity`
non-player branch integrates exactly `v += a·dt`.  No locomotion state
machine is involved for either entity kind. -/
theorem c4_nonplayer_gravity_integration (m : JsMath) (planets : List Planet)
    (dt : ℚ) (proj : Projectile) (mt : Meteorite)
    (hp : proj.active = true) (hm : mt.active = true) :
    ((Game.hostProjectileTick m planets dt proj).vx
        = proj.vx + (sumInRangeAccel m planets ⟨proj.x, proj.y⟩).x * dt ∧
      (Game.hostProjectileTick m planets dt proj).vy
        = proj.vy + (sumInRangeAccel m planets ⟨proj.x, proj.y⟩).y * dt ∧
      (Game.hostProjectileTick m planets dt proj).x
        = proj.x + (proj.vx + (sumInRangeAccel m planets ⟨proj.x, proj.y⟩).x * dt) * dt ∧
      (Game.hostProjectileTick m planets dt proj).y
        = proj.y + (proj.vy + (sumInRangeAccel m planets ⟨proj.x, proj.y⟩).y * dt) * dt) ∧
    ((Game.hostMeteoriteTick m planets dt mt).vx
        = mt.vx + (sumInRangeAccel m planets ⟨mt.x, mt.y⟩).x * dt * (1/2) ∧
      (Game.hostMeteoriteTick m planets dt mt).vy
        = mt.vy + (sumInRangeAccel m planets ⟨mt.x, mt.y⟩).y * dt * (1/2)) ∧
    (∀ (pos v : Vec2),
      GravitySystem.applyGravitySimple m planets dt pos v =
        ⟨v.x + (sumInRangeAccel m planets pos).x * dt,
         v.y + (sumInRangeAccel m planets pos).y * dt⟩) := by
  have hpt : Game.hostProjectileTick m planets dt proj =
      Projectile.update dt (planets.foldl (Game.projGravityStep m dt) proj) := by
    unfold Game.hostProjectileTick
    rw [hp]
    simp
  have hmt : Game.hostMeteoriteTick m planets dt mt =
      Meteorite.update dt (planets.foldl (Game.metGravityStep m dt) mt) := by
    unfold Game.hostMeteoriteTick
    rw [hm]
    simp
  refine ⟨⟨?_, ?_, ?_, ?_⟩, ⟨?_, ?_⟩, ?_⟩
  · rw [hpt, projGravityFold]; rfl
  · rw [hpt, projGravityFold]; rfl
  · rw [hpt, projGravityFold]; rfl
  · rw [hpt, projGravityFold]; rfl
  · rw [hmt, metGravityFold]; rfl
  · rw [hmt, metGravityFold]; rfl
  · intro pos v
    unfold GravitySystem.applyGravitySimple
    rw [totalAccel_eq_sum]

/-- C4 counterexample: for a meteorite at rest at distance 300 from a body
of mass 150 (gravity range 500), the in-range acceleration is (-11/3, 0)
(the square root the code consults is exact: 300² = 90000), yet after one
host tick with dt = 1 the meteorite's velocity is -11/6 — half of the
claimed `v + a·dt = -11/3`. -/
theorem c4_counterexample :
    (300:ℚ) * 300 = 90000 ∧
    Physics.gravityAccel mathTable ⟨300, 0⟩ planetGravEx = ⟨-11/3, 0⟩ ∧
    (Game.hostMeteoriteTick mathTable [planetGravEx] 1 metGravEx).vx = -11/6 ∧
    ¬ (Game.hostMeteoriteTick mathTable [planetGravEx] 1 metGravEx).vx
        = metGravEx.vx + (-11/3) * 1 := by
  refine ⟨by norm_num, ?_, ?_, ?_⟩
  · simp only [Physics.gravityAccel, Physics.GRAVITY_CONSTANT, planetGravEx,
      Planet.mk0, mathTable, Vec2.normalize, Vec2.len, Vec2.scale]
    norm_num
  · simp only [Game.hostMeteoriteTick, Game.metGravityStep, metGravEx,
      Meteorite.mk0, Meteorite.update, planetGravEx, Planet.mk0, Planet.pos,
      mathTable, Vec2.distTo, Vec2.sub, Vec2.len, Vec2.normalize, Vec2.scale,
      Physics.gravityAccel, Physics.GRAVITY_CONSTANT, List.foldl_cons,
      List.foldl_nil]
    norm_num
  · simp only [Game.hostMeteoriteTick, Game.metGravityStep, metGravEx,
      Meteorite.mk0, Meteorite.update, planetGravEx, Planet.mk0, Planet.pos,
      mathTable, Vec2.distTo, Vec2.sub, Vec2.len, Vec2.normalize, Vec2.scale,
      Physics.gravityAccel, Physics.GRAVITY_CONSTANT, List.foldl_cons,
      List.foldl_nil]
    norm_num

/-- Witness for C4 (amended) at a concrete meteorite and projectile. -/
theorem c4_witness :
    (Game.hostMeteoriteTick mathTable [planetGravEx] 1 metGravEx).vx
      = metGravEx.vx
        + (sumInRangeAccel mathTable [planetGravEx] ⟨metGravEx.x, metGravEx.y⟩).x
          * 1 * (1/2) ∧
    (Game.hostProjectileTick mathTable [planetGravEx] 1
        (Projectile.mk0 300 0 0 0 "host" "#ffdd44")).vx
      = (Projectile.mk0 300 0 0 0 "host" "#ffdd44").vx
        + (sumInRangeAccel mathTable [planetGravEx] ⟨300, 0⟩).x * 1 := by
  have h := c4_nonplayer_gravity_integration mathTable [planetGravEx] 1
    (Projectile.mk0 300 0 0 0 "host" "#ffdd44") metGravEx rfl rfl
  exact ⟨h.2.1.1, h.1.1⟩

/-!  C5. -/

/-- C5: for an alive player with elapsed cooldown carrying the default
shotgun, `WeaponSystem.fire` returns exactly 7 projectiles; pellet `i`
starts at the muzzle (30 units along the aim direction), has damage 15,
radius 2 and lifetime 1.5, and flies at angle
`b - π/8 + (π/4)·(i/6) + (jitterᵢ - 1/2)·0.05` with speed
`1200 + (jitterᵢ - 1/2)·50` — the 7 base angles are evenly spaced by π/24
across the π/4 (45°) arc centred on the aim angle `b` (the direction from
the player to the target); the shoot cooldown (and its max) is left at
0.35 s, shots-fired is incremented by one, and the velocity receives a
recoil impulse of 150 opposite the aim direction (of squared magnitude
150² whenever cos²b + sin²b = 1). -/
theorem c5_shotgun_fire (m : JsMath) (jitter : Nat → ℚ × ℚ) (p : Player)
    (tx ty : ℚ)
    (halive : p.alive = true) (hcool : p.shootCooldown ≤ 0)
    (hweap : p.currentWeapon.getD .SHOTGUN = .SHOTGUN) :
    (WeaponSystem.fire m jitter p tx ty).2.length = 7 ∧
    (∀ i : Nat, i < 7 →
      (WeaponSystem.fire m jitter p tx ty).2.get? i =
        some { Projectile.mk0
                 (p.x + m.cos (m.atan2 (ty - p.y) (tx - p.x)) * 30)
                 (p.y + m.sin (m.atan2 (ty - p.y) (tx - p.x)) * 30)
                 (m.cos (m.atan2 (ty - p.y) (tx - p.x) - piQ/4/2 + piQ/4 * ((i : ℚ)/6)
                          + ((jitter i).1 - 1/2) * (1/20))
                   * (1200 + ((jitter i).2 - 1/2) * 50))
                 (m.sin (m.atan2 (ty - p.y) (tx - p.x) - piQ/4/2 + piQ/4 * ((i : ℚ)/6)
                          + ((jitter i).1 - 1/2) * (1/20))
                   * (1200 + ((jitter i).2 - 1/2) * 50))
                 p.id p.color with
               damage := 15, radius := 2, lifetime := 3/2 }) ∧
    (∀ b : ℚ, ∀ i : Nat,
      (b - piQ/4/2 + piQ/4 * (((i : ℚ) + 1)/6))
        - (b - piQ/4/2 + piQ/4 * ((i : ℚ)/6)) = piQ/24) ∧
    (∀ b : ℚ,
      (b - piQ/4/2 + piQ/4 * ((0 : ℚ)/6)) + (b - piQ/4/2 + piQ/4 * ((6 : ℚ)/6))
        = 2 * b ∧
      (b - piQ/4/2 + piQ/4 * ((6 : ℚ)/6)) - (b - piQ/4/2 + piQ/4 * ((0 : ℚ)/6))
        = piQ/4) ∧
    (WeaponSystem.fire m jitter p tx ty).1.shootCooldown = 7/20 ∧
    (WeaponSystem.fire m jitter p tx ty).1.shootCooldownMax = 7/20 ∧
    (WeaponSystem.fire m jitter p tx ty).1.shotsFired = p.shotsFired + 1 ∧
    (WeaponSystem.fire m jitter p tx ty).1.vx
      = p.vx - m.cos (m.atan2 (ty - p.y) (tx - p.x)) * 150 ∧
    (WeaponSystem.fire m jitter p tx ty).1.vy
      = p.vy - m.sin (m.atan2 (ty - p.y) (tx - p.x)) * 150 ∧
    (∀ b : ℚ,
      m.cos b * m.cos b + m.sin b * m.sin b = 1 →
      Vec2.sqLen ⟨-(m.cos b * 150), -(m.sin b * 150)⟩ = 150 * 150) := by
  have hcs : Player.canShoot p = true := by
    simp [Player.canShoot, halive, hcool]
  have key : WeaponSystem.fire m jitter p tx ty =
      ({ p with shootCooldownMax := 7/20, shootCooldown := 7/20
                shotsFired := p.shotsFired + 1
                vx := p.vx - m.cos (m.atan2 (ty - p.y) (tx - p.x)) * 150
                vy := p.vy - m.sin (m.atan2 (ty - p.y) (tx - p.x)) * 150 },
       (List.range 7).map (fun (i : Nat) =>
         { Projectile.mk0
             (p.x + m.cos (m.atan2 (ty - p.y) (tx - p.x)) * 30)
             (p.y + m.sin (m.atan2 (ty - p.y) (tx - p.x)) * 30)
             (m.cos (m.atan2 (ty - p.y) (tx - p.x) - piQ/4/2 + piQ/4 * ((i : ℚ)/6)
                      + ((jitter i).1 - 1/2) * (1/20))
               * (1200 + ((jitter i).2 - 1/2) * 50))
             (m.sin (m.atan2 (ty - p.y) (tx - p.x) - piQ/4/2 + piQ/4 * ((i : ℚ)/6)
                      + ((jitter i).1 - 1/2) * (1/20))
               * (1200 + ((jitter i).2 - 1/2) * 50))
             p.id p.color with
           damage := 15, radius := 2, lifetime := 3/2 })) := by
    unfold WeaponSystem.fire
    rw [hcs]
    simp only [Bool.true_eq_false, if_false, hweap]
    norm_num
  refine ⟨?_, ?_, ?_, ?_, ?_, ?_, ?_, ?_, ?_, ?_⟩
  · rw [key]; simp
  · intro i hi
    rw [key]
    rw [List.get?_map, List.get?_range hi]
    rfl
  · intro b i
    ring
  · intro b
    constructor <;> ring
  · rw [key]
  · rw [key]
  · rw [key]
  · rw [key]
  · rw [key]
  · intro b hb
    simp only [Vec2.sqLen]
    nlinarith [hb]

/-- Witness for C5: the default player (alive, no cooldown, no weapon
pickup, so the shotgun default applies) firing at (10, 0). -/
theorem c5_witness :
    (WeaponSystem.fire mathTable (fun _ => (1/2, 1/2)) (Player.mk0 "host" 0) 10 0).2.length
      = 7 ∧
    (WeaponSystem.fire mathTable (fun _ => (1/2, 1/2)) (Player.mk0 "host" 0) 10 0).1.shootCooldown
      = 7/20 ∧
    (WeaponSystem.fire mathTable (fun _ => (1/2, 1/2)) (Player.mk0 "host" 0) 10 0).1.shotsFired
      = 1 ∧
    (WeaponSystem.fire mathTable (fun _ => (1/2, 1/2)) (Player.mk0 "host" 0) 10 0).1.vx
      = -150 := by
  have h := c5_shotgun_fire mathTable (fun _ => (1/2, 1/2)) (Player.mk0 "host" 0) 10 0
    rfl (by norm_num [Player.mk0]) rfl
  refine ⟨h.1, h.2.2.2.2.1, ?_, ?_⟩
  · rw [h.2.2.2.2.2.2.1]
    norm_num [Player.mk0]
  · rw [h.2.2.2.2.2.2.2.1]
    norm_num [mathTable, Player.mk0]

/-!  C9. -/

/-- C9: one step of `HazardSystem.update` advances the clock; whenever the
spawn timer has elapsed it is reset to the effective interval — 0.3 s while
the shower window is active, and otherwise
`max(floor, base − elapsedMatchTime·escalationRate)`, which never goes
below the floor — and a meteorite is appended unless more than 15 are
already active, in which case the spawn is simply dropped (the timer is
still reset: nothing is deferred or queued); when the timer has not elapsed
nothing is spawned. -/
theorem c9_hazard_schedule (m : JsMath) (rnd : Nat → ℚ) (st : HazardSystem)
    (dt : ℚ) (mets : List Meteorite) :
    (HazardSystem.update m rnd st dt mets).1.gameTime = st.gameTime + dt ∧
    (st.spawnTimer - dt ≤ 0 →
      (HazardSystem.update m rnd st dt mets).1.spawnTimer =
        (if (HazardSystem.update m rnd st dt mets).1.showerActive then 3/10
         else max st.minInterval
                (st.baseInterval - (st.gameTime + dt) * st.escalationRate)) ∧
      (15 < mets.length →
        (HazardSystem.update m rnd st dt mets).2 = mets) ∧
      (¬ 15 < mets.length →
        (HazardSystem.update m rnd st dt mets).2 =
          mets ++ [HazardSystem.spawnMeteorite m rnd st])) ∧
    (¬ st.spawnTimer - dt ≤ 0 →
      (HazardSystem.update m rnd st dt mets).1.spawnTimer = st.spawnTimer - dt ∧
      (HazardSystem.update m rnd st dt mets).2 = mets) ∧
    ((HazardSystem.update m rnd st dt mets).1.showerActive = false →
      st.minInterval ≤
        (if (HazardSystem.update m rnd st dt mets).1.showerActive then 3/10
         else max st.minInterval
                (st.baseInterval - (st.gameTime + dt) * st.escalationRate))) := by
  unfold HazardSystem.update
  dsimp only
  by_cases hs : st.spawnTimer - dt ≤ 0
  · rw [if_pos hs]
    refine ⟨rfl, ?_, ?_, ?_⟩
    · intro _
      refine ⟨rfl, ?_, ?_⟩
      · intro hcap
        unfold HazardSystem.trySpawn
        rw [if_pos hcap]
      · intro hcap
        unfold HazardSystem.trySpawn
        rw [if_neg hcap]
        rfl
    · intro hns
      exact absurd hs hns
    · intro hna
      rw [hna]
      simp only [Bool.false_eq_true, if_false]
      exact le_max_left _ _
  · rw [if_neg hs]
    refine ⟨rfl, ?_, ?_, ?_⟩
    · intro hsp
      exact absurd hsp hs
    · intro _
      exact ⟨rfl, rfl⟩
    · intro hna
      rw [hna]
      simp only [Bool.false_eq_true, if_false]
      exact le_max_left _ _

/-- Witness for C9: the first tick of a fresh hazard system spawns one
meteorite and resets the timer to `max(1, 4 − (1/60)·0.05) = 4799/1200`. -/
theorem c9_witness :
    (HazardSystem.update mathTable (fun _ => 0) HazardSystem.mk0 (1/60) []).1.spawnTimer
      = 4799/1200 ∧
    (HazardSystem.update mathTable (fun _ => 0) HazardSystem.mk0 (1/60) []).2.length
      = 1 := by
  have h := c9_hazard_schedule mathTable (fun _ => 0) HazardSystem.mk0 (1/60) []
  have hsp : HazardSystem.mk0.spawnTimer - 1/60 ≤ 0 := by
    norm_num [HazardSystem.mk0]
  have h2 := h.2.1 hsp
  have hsa : (HazardSystem.update mathTable (fun _ => 0) HazardSystem.mk0 (1/60) []).1.showerActive
      = false := by
    norm_num [HazardSystem.update, HazardSystem.mk0]
  constructor
  · rw [h2.1, hsa]
    simp only [Bool.false_eq_true, if_false]
    rw [max_eq_right (by norm_num [HazardSystem.mk0])]
    norm_num [HazardSystem.mk0]
  · rw [h2.2.2 (by simp)]
    simp

/-!  C7. -/

theorem updateFirst_length (pred : α → Bool) (f : α → α) :
    ∀ l : List α, (updateFirst pred f l).length = l.length := by
  intro l
  induction l with
  | nil => rfl
  | cons x xs ih =>
    unfold updateFirst
    by_cases hx : pred x
    · rw [if_pos hx]; rfl
    · rw [if_neg hx]
      simp [ih]

theorem Player.takeDamage_id (amount : ℚ) (p : Player) :
    ((Player.takeDamage amount p).2).id = p.id := by
  unfold Player.takeDamage
  split
  · rfl
  · dsimp only
    split <;> rfl

/-- `projTargets` never selects the projectile's owner. -/
theorem projTargets_ne_owner (proj : Projectile) (p : Player)
    (h : CollisionSystem.projTargets proj p = true) : ¬ p.id = proj.ownerId := by
  unfold CollisionSystem.projTargets at h
  simp only [Bool.and_eq_true, Bool.not_eq_eq_eq_not, Bool.not_true, beq_eq_false_iff_ne,
    ne_eq] at h
  exact h.1.1.2

/-- `damageFirstTarget` either touches nobody or damages exactly the first
matching target index. -/
theorem damageFirstTarget_cases (proj : Projectile) :
    ∀ ps : List Player,
      CollisionSystem.damageFirstTarget proj ps = (ps, none) ∨
      (∃ k pk v, ps.get? k = some pk ∧
        CollisionSystem.projTargets proj pk = true ∧
        CollisionSystem.damageFirstTarget proj ps =
          (ps.set k (Player.takeDamage proj.damage pk).2, some v)) := by
  intro ps
  induction ps with
  | nil => left; rfl
  | cons p rest ih =>
    by_cases hp : CollisionSystem.projTargets proj p = true
    · right
      refine ⟨0, p, (p.id, p.name, (Player.takeDamage proj.damage p).1), rfl, hp, ?_⟩
      unfold CollisionSystem.damageFirstTarget
      rw [if_pos hp]
      simp [List.set]
    · rcases ih with h | ⟨k, pk, v, hget, hpk, heq⟩
      · left
        unfold CollisionSystem.damageFirstTarget
        rw [if_neg hp, h]
      · right
        refine ⟨k + 1, pk, v, by simpa using hget, hpk, ?_⟩
        unfold CollisionSystem.damageFirstTarget
        rw [if_neg hp, heq]
        simp [List.set]

/-- `updateFirst` either changes nothing or rewrites exactly one index. -/
theorem updateFirst_cases (pred : α → Bool) (f : α → α) :
    ∀ l : List α,
      updateFirst pred f l = l ∨
      ∃ j x, l.get? j = some x ∧ updateFirst pred f l = l.set j (f x) := by
  intro l
  induction l with
  | nil => left; rfl
  | cons y xs ih =>
    by_cases hx : pred y = true
    · right
      refine ⟨0, y, rfl, ?_⟩
      unfold updateFirst
      rw [if_pos hx]
      simp [List.set]
    · rcases ih with h | ⟨j, x, hget, heq⟩
      · left
        unfold updateFirst
        rw [if_neg hx, h]
      · right
        refine ⟨j + 1, x, by simpa using hget, ?_⟩
        unfold updateFirst
        rw [if_neg hx, heq]
        simp [List.set]

/-- Crediting the attacker never changes any player's health. -/
theorem creditAttacker_health (died : Bool) (dmg : ℚ) (owner : String)
    (ps : List Player) (i : Nat) :
    ((CollisionSystem.creditAttacker died dmg owner ps).get? i).map (fun q => q.health)
      = (ps.get? i).map (fun q => q.health) := by
  rcases updateFirst_cases (fun a => a.id == owner)
      (fun a => { a with shotsHit := a.shotsHit + 1, damageDealt := a.damageDealt + dmg
                         kills := if died then a.kills + 1 else a.kills }) ps
    with h | ⟨j, x, hget, heq⟩
  · unfold CollisionSystem.creditAttacker
    rw [h]
  · unfold CollisionSystem.creditAttacker
    rw [heq]
    have hj : j < ps.length := (List.get?_eq_some.mp hget).1
    rw [List.get?_set_of_lt' _ _ hj]
    by_cases hij : j = i
    · subst hij
      rw [if_pos rfl, hget]
      rfl
    · rw [if_neg hij]

/-- `processProjectile` when no target matches: nothing changes. -/
theorem processProjectile_of_miss (ps : List Player) (proj : Projectile)
    (h : CollisionSystem.damageFirstTarget proj ps = (ps, none)) :
    CollisionSystem.processProjectile ps proj = (ps, proj, []) := by
  unfold CollisionSystem.processProjectile
  by_cases hact : proj.active = false
  · rw [if_pos hact]
  · rw [if_neg hact]
    dsimp only
    rw [h]

/-- `processProjectile` when the first matching target is hit: the target is
damaged, the attacker credited, the projectile deactivated, one event
emitted. -/
theorem processProjectile_of_hit (ps : List Player) (proj : Projectile)
    (hact : proj.active = true) (k : Nat) (pk : Player)
    (vid vname : String) (died : Bool)
    (h : CollisionSystem.damageFirstTarget proj ps =
      (ps.set k (Player.takeDamage proj.damage pk).2, some (vid, vname, died))) :
    CollisionSystem.processProjectile ps proj =
      (CollisionSystem.creditAttacker died proj.damage proj.ownerId
         (ps.set k (Player.takeDamage proj.damage pk).2),
       { proj with active := false },
       [if died then
          GameEvent.kill proj.ownerId vid
            (((ps.set k (Player.takeDamage proj.damage pk).2).find?
                (fun a => a.id == proj.ownerId)).map (fun a => a.name)) vname
        else GameEvent.hit vid proj.damage]) := by
  unfold CollisionSystem.processProjectile
  rw [hact]
  simp only [Bool.true_eq_false, if_false]
  rw [h]

/-- C7: in `CollisionSystem.update` a projectile never damages the player
whose id equals its `ownerId` (any owner-indexed entry keeps its health, for
any positions), and each projectile resolves against at most one player —
at most one index of the player list changes health, so two stacked players
are never both damaged — and a projectile that hits is immediately
deactivated, emitting exactly one event. -/
theorem c7_projectile_resolution (m : JsMath) (ps : List Player)
    (proj : Projectile) (planets : List Planet) :
    (∀ i pi, ps.get? i = some pi → pi.id = proj.ownerId →
      ((CollisionSystem.update m ps [proj] [] planets).players.get? i).map
          (fun q => q.health)
        = some pi.health) ∧
    (∀ i j pi pj, ps.get? i = some pi → ps.get? j = some pj →
      ¬ ((CollisionSystem.update m ps [proj] [] planets).players.get? i).map
            (fun q => q.health) = some pi.health →
      ¬ ((CollisionSystem.update m ps [proj] [] planets).players.get? j).map
            (fun q => q.health) = some pj.health →
      i = j) ∧
    ((CollisionSystem.processProjectile ps proj).2.2.length ≤ 1) ∧
    (¬ (CollisionSystem.processProjectile ps proj).2.2 = [] →
      (CollisionSystem.processProjectile ps proj).2.1.active = false) := by
  have hred : (CollisionSystem.update m ps [proj] [] planets).players
      = (CollisionSystem.processProjectile ps proj).1 := rfl
  by_cases hact : proj.active = true
  · rcases damageFirstTarget_cases proj ps with hmiss | ⟨k, pk, v, hget, hpk, hhit⟩
    · have hP := processProjectile_of_miss ps proj hmiss
      rw [hred, hP]
      refine ⟨?_, ?_, ?_, ?_⟩
      · intro i pi hi _
        dsimp only
        rw [hi]
        rfl
      · intro i j pi pj hi hj hne _
        exact absurd (by dsimp only; rw [hi]; rfl) hne
      · simp
      · intro hne
        exact absurd rfl hne
    · obtain ⟨vid, vname, died⟩ := v
      have hP := processProjectile_of_hit ps proj hact k pk vid vname died hhit
      have hk : k < ps.length := (List.get?_eq_some.mp hget).1
      have hres : ∀ i, ((CollisionSystem.update m ps [proj] [] planets).players.get? i).map
          (fun q => q.health)
          = if k = i then some ((Player.takeDamage proj.damage pk).2.health)
            else (ps.get? i).map (fun q => q.health) := by
        intro i
        rw [hred, hP]
        dsimp only
        rw [creditAttacker_health]
        rw [List.get?_set_of_lt' _ _ hk]
        by_cases hik : k = i
        · rw [if_pos hik, if_pos hik]
          rfl
        · rw [if_neg hik, if_neg hik]
      refine ⟨?_, ?_, ?_, ?_⟩
      · intro i pi hi hown
        rw [hres i]
        by_cases hik : k = i
        · exfalso
          apply projTargets_ne_owner proj pk hpk
          subst hik
          rw [hget] at hi
          cases hi
          exact hown
        · rw [if_neg hik, hi]
          rfl
      · intro i j pi pj hi hj hnei hnej
        have hki : k = i := by
          by_contra hik
          apply hnei
          rw [hres i, if_neg hik, hi]
          rfl
        have hkj : k = j := by
          by_contra hjk
          apply hnej
          rw [hres j, if_neg hjk, hj]
          rfl
        rw [← hki, ← hkj]
      · rw [hP]
        simp
      · intro _
        rw [hP]
  · have hfalse : proj.active = false := by
      cases hpa : proj.active
      · rfl
      · exact absurd hpa hact
    have hP : CollisionSystem.processProjectile ps proj = (ps, proj, []) := by
      unfold CollisionSystem.processProjectile
      rw [if_pos hfalse]
    rw [hred, hP]
    refine ⟨?_, ?_, ?_, ?_⟩
    · intro i pi hi _
      dsimp only
      rw [hi]
      rfl
    · intro i j pi pj hi hj hne _
      exact absurd (by dsimp only; rw [hi]; rfl) hne
    · simp
    · intro hne
      exact absurd rfl hne

/-- Witness for C7: three players stacked at the origin, the projectile
owned by the first.  The owner keeps health 100, only the first non-owner
is damaged (100 → 80), and the second non-owner keeps health 100 although
it overlaps the projectile too. -/
theorem c7_witness :
    ((CollisionSystem.update mathTable stackedPlayersEx [projStackedEx] [] []).players.get? 0).map
        (fun q => q.health) = some 100 ∧
    ((CollisionSystem.update mathTable stackedPlayersEx [projStackedEx] [] []).players.get? 1).map
        (fun q => q.health) = some 80 ∧
    ((CollisionSystem.update mathTable stackedPlayersEx [projStackedEx] [] []).players.get? 2).map
        (fun q => q.health) = some 100 ∧
    Physics.circleCollision projStackedEx.x projStackedEx.y projStackedEx.radius
      (Player.mk0 "C" 2).x (Player.mk0 "C" 2).y ((Player.mk0 "C" 2).radius + 4)
      = true := by
  have h := c7_projectile_resolution mathTable stackedPlayersEx projStackedEx []
  have hBA : ¬ ("B" : String) = "A" := by decide
  have hCA : ¬ ("C" : String) = "A" := by decide
  refine ⟨h.1 0 (Player.mk0 "A" 0) rfl rfl, ?_, ?_, ?_⟩
  · norm_num [CollisionSystem.update, CollisionSystem.projPlayerPass,
      CollisionSystem.processProjectile, CollisionSystem.damageFirstTarget,
      CollisionSystem.projTargets, CollisionSystem.creditAttacker,
      CollisionSystem.metPlayerPass, CollisionSystem.metPlanetPass,
      CollisionSystem.metPlanetHitOne, CollisionSystem.projPlanetHit, updateFirst,
      Physics.circleCollision, Player.takeDamage, Player.mk0, Projectile.mk0,
      stackedPlayersEx, projStackedEx, defaultPlayerName, defaultPlayerColor,
      hBA, hCA]
  · norm_num [CollisionSystem.update, CollisionSystem.projPlayerPass,
      CollisionSystem.processProjectile, CollisionSystem.damageFirstTarget,
      CollisionSystem.projTargets, CollisionSystem.creditAttacker,
      CollisionSystem.metPlayerPass, CollisionSystem.metPlanetPass,
      CollisionSystem.metPlanetHitOne, CollisionSystem.projPlanetHit, updateFirst,
      Physics.circleCollision, Player.takeDamage, Player.mk0, Projectile.mk0,
      stackedPlayersEx, projStackedEx, defaultPlayerName, defaultPlayerColor,
      hBA, hCA]
  · norm_num [Physics.circleCollision, Player.mk0, projStackedEx, Projectile.mk0]

/-!  C3. -/

/-- The meteorite↔player inner loop is a pointwise map: every overlapping
alive, non-invulnerable player is damaged, and a kill event is emitted for
each player that dies (nothing for non-lethal damage). -/
theorem metDamagePlayers_eq (mt : Meteorite) :
    ∀ ps : List Player,
      CollisionSystem.metDamagePlayers mt ps =
        (ps.map (fun p =>
           if (p.alive && !(decide (0 < p.invulnerable))) &&
               Physics.circleCollision mt.x mt.y mt.radius p.x p.y (p.radius + 2)
           then (Player.takeDamage mt.damage p).2 else p),
         ps.filterMap (fun p =>
           if (p.alive && !(decide (0 < p.invulnerable))) &&
               Physics.circleCollision mt.x mt.y mt.radius p.x p.y (p.radius + 2)
           then
             (if (Player.takeDamage mt.damage p).1 then
               some (GameEvent.kill "__meteorite" p.id (some "☄️ Meteorite") p.name)
              else none)
           else none)) := by
  intro ps
  induction ps with
  | nil => rfl
  | cons p rest ih =>
    unfold CollisionSystem.metDamagePlayers
    rw [List.map_cons, List.filterMap_cons]
    by_cases hc : ((p.alive && !(decide (0 < p.invulnerable))) &&
        Physics.circleCollision mt.x mt.y mt.radius p.x p.y (p.radius + 2)) = true
    · simp only [if_pos hc, ih]
      by_cases hd : (Player.takeDamage mt.damage p).1 = true
      · simp only [if_pos hd]
        rfl
      · simp only [if_neg hd]
        rfl
    · simp only [if_neg hc, ih]

theorem projPlayerPass_nil (ps : List Player) :
    CollisionSystem.projPlayerPass ps [] = (ps, [], []) := rfl

theorem metPlayerPass_nil (ps : List Player) :
    CollisionSystem.metPlayerPass ps [] = (ps, []) := rfl

theorem metPlanetPass_singleton (m : JsMath) (planets : List Planet)
    (mt0 : Meteorite) :
    CollisionSystem.metPlanetPass m planets [mt0] =
      ((CollisionSystem.metPlanetHitOne m planets mt0).1 :: [],
       [] ++ (CollisionSystem.metPlanetHitOne m planets mt0).2) := rfl

theorem metPlayerPass_singleton (ps : List Player) (mt0 : Meteorite)
    (hact : mt0.active = true) :
    CollisionSystem.metPlayerPass ps [mt0] =
      ((CollisionSystem.metDamagePlayers mt0 ps).1,
       (CollisionSystem.metDamagePlayers mt0 ps).2 ++ []) := by
  unfold CollisionSystem.metPlayerPass
  rw [if_neg (by rw [hact]; exact fun h => nomatch h)]
  rfl

/-- `CollisionSystem.update` with no projectiles and a single active
meteorite, in terms of the two meteorite passes. -/
theorem collisionUpdate_single_meteorite (m : JsMath) (players : List Player)
    (mt0 : Meteorite) (planets : List Planet) (hact : mt0.active = true) :
    CollisionSystem.update m players [] [mt0] planets =
      { players := (CollisionSystem.metDamagePlayers mt0 players).1
        projectiles := []
        meteorites :=
          ((CollisionSystem.metPlanetHitOne m planets mt0).1 :: []).filter
            (fun mt => mt.active)
        events := (CollisionSystem.metDamagePlayers mt0 players).2 ++
          (CollisionSystem.metPlanetHitOne m planets mt0).2 } := by
  unfold CollisionSystem.update
  rw [projPlayerPass_nil]
  dsimp only
  rw [metPlayerPass_singleton players mt0 hact, metPlanetPass_singleton]
  dsimp only
  simp

/-- The meteorite↔planet body for an active meteorite: destroyed exactly on
a (half-radius) planet overlap, with the impact event. -/
theorem metPlanetHitOne_active (m : JsMath) (planets : List Planet)
    (mt0 : Meteorite) (hact : mt0.active = true) :
    CollisionSystem.metPlanetHitOne m planets mt0 =
      (if planets.any (fun pl =>
          Physics.circleCollision mt0.x mt0.y (mt0.radius * (1/2)) pl.x pl.y pl.radius)
       then ({ mt0 with active := false }, [GameEvent.meteoriteImpact mt0.x mt0.y])
       else (mt0, [])) := by
  unfold CollisionSystem.metPlanetHitOne
  rw [hact]
  by_cases hp : (planets.any fun pl =>
      Physics.circleCollision mt0.x mt0.y (mt0.radius * (1/2)) pl.x pl.y pl.radius) = true
  · rw [if_pos hp, if_pos (by rw [hp]; rfl)]
  · rw [if_neg hp, if_neg (by rw [Bool.true_and]; exact hp)]

/-- C3 (amended): with a single active meteorite (and no projectiles), a
`CollisionSystem.update` removes the meteorite exactly when it overlaps a
planet (half-radius test) — a meteorite↔player collision damages the player
but leaves the meteorite active and in the collection; every overlapping
alive, non-invulnerable player takes the meteorite's damage; the emitted
events are exactly one kill with the synthetic "__meteorite" attacker per
player that died, followed by the planet-impact event if any — never a hit
event; and `Meteorite.update` deactivates a meteorite exactly when its age
reaches its TTL. -/
theorem c3_meteorite_lifecycle (m : JsMath) (players : List Player)
    (mt0 : Meteorite) (planets : List Planet) (hact : mt0.active = true) :
    (CollisionSystem.update m players [] [mt0] planets).meteorites
      = (if planets.any (fun pl =>
            Physics.circleCollision mt0.x mt0.y (mt0.radius * (1/2)) pl.x pl.y pl.radius)
         then [] else [mt0]) ∧
    (CollisionSystem.update m players [] [mt0] planets).players
      = players.map (fun p =>
          if (p.alive && !(decide (0 < p.invulnerable))) &&
              Physics.circleCollision mt0.x mt0.y mt0.radius p.x p.y (p.radius + 2)
          then (Player.takeDamage mt0.damage p).2 else p) ∧
    (CollisionSystem.update m players [] [mt0] planets).events
      = players.filterMap (fun p =>
          if (p.alive && !(decide (0 < p.invulnerable))) &&
              Physics.circleCollision mt0.x mt0.y mt0.radius p.x p.y (p.radius + 2)
          then
            (if (Player.takeDamage mt0.damage p).1 then
              some (GameEvent.kill "__meteorite" p.id (some "☄️ Meteorite") p.name)
             else none)
          else none)
        ++ (if planets.any (fun pl =>
              Physics.circleCollision mt0.x mt0.y (mt0.radius * (1/2)) pl.x pl.y pl.radius)
            then [GameEvent.meteoriteImpact mt0.x mt0.y] else []) ∧
    (∀ e, e ∈ (CollisionSystem.update m players [] [mt0] planets).events →
      e.isHit = false) ∧
    (∀ (dt : ℚ) (mt : Meteorite),
      (Meteorite.update dt mt).active
        = (if mt.lifetime ≤ mt.age + dt then false else mt.active)) := by
  rw [collisionUpdate_single_meteorite m players mt0 planets hact]
  rw [metPlanetHitOne_active m planets mt0 hact]
  have hmd := metDamagePlayers_eq mt0 players
  by_cases hp : (planets.any fun pl =>
      Physics.circleCollision mt0.x mt0.y (mt0.radius * (1/2)) pl.x pl.y pl.radius) = true
  · rw [if_pos hp]
    dsimp only
    rw [if_pos hp, if_pos hp]
    refine ⟨by simp [List.filter], by rw [hmd], by rw [hmd], ?_, ?_⟩
    · intro e he
      rw [hmd] at he
      rcases List.mem_append.mp he with h1 | h2
      · rcases List.mem_filterMap.mp h1 with ⟨p, _, hsome⟩
        by_cases hc : ((p.alive && !(decide (0 < p.invulnerable))) &&
            Physics.circleCollision mt0.x mt0.y mt0.radius p.x p.y (p.radius + 2)) = true
        · rw [if_pos hc] at hsome
          by_cases hd : (Player.takeDamage mt0.damage p).1 = true
          · rw [if_pos hd] at hsome
            cases hsome
            rfl
          · rw [if_neg hd] at hsome
            cases hsome
        · rw [if_neg hc] at hsome
          cases hsome
      · rcases List.mem_singleton.mp h2 with rfl
        rfl
    · intro dt mt
      unfold Meteorite.update
      dsimp only
  · rw [if_neg hp]
    dsimp only
    rw [if_neg hp, if_neg hp]
    refine ⟨by simp [List.filter, hact], by rw [hmd], by rw [hmd],
      ?_, ?_⟩
    · intro e he
      rw [hmd] at he
      rcases List.mem_append.mp he with h1 | h2
      · rcases List.mem_filterMap.mp h1 with ⟨p, _, hsome⟩
        by_cases hc : ((p.alive && !(decide (0 < p.invulnerable))) &&
            Physics.circleCollision mt0.x mt0.y mt0.radius p.x p.y (p.radius + 2)) = true
        · rw [if_pos hc] at hsome
          by_cases hd : (Player.takeDamage mt0.damage p).1 = true
          · rw [if_pos hd] at hsome
            cases hsome
            rfl
          · rw [if_neg hd] at hsome
            cases hsome
        · rw [if_neg hc] at hsome
          cases hsome
      · cases h2
    · intro dt mt
      unfold Meteorite.update
      dsimp only

/-- C3 (counterexample): a meteorite overlapping a player collides with it
(the player takes the 50 damage), yet the meteorite is neither deactivated
nor removed from the collection by the collision pass — refuting "destroyed
exactly when it collides". -/
theorem c3_counterexample :
    Physics.circleCollision metOverlapEx.x metOverlapEx.y metOverlapEx.radius
      (Player.mk0 "host" 0).x (Player.mk0 "host" 0).y
      ((Player.mk0 "host" 0).radius + 2) = true ∧
    (CollisionSystem.update mathTable [Player.mk0 "host" 0] [] [metOverlapEx] []).players.map
      (fun p => p.health) = [50] ∧
    (CollisionSystem.update mathTable [Player.mk0 "host" 0] [] [metOverlapEx] []).meteorites.map
      (fun mt => mt.active) = [true] := by
  refine ⟨?_, ?_, ?_⟩ <;>
  norm_num [CollisionSystem.update, CollisionSystem.projPlayerPass,
    CollisionSystem.metPlayerPass, CollisionSystem.metDamagePlayers,
    CollisionSystem.metPlanetPass, CollisionSystem.metPlanetHitOne,
    Physics.circleCollision, Player.takeDamage, Player.mk0, Meteorite.mk0,
    metOverlapEx, defaultPlayerName, defaultPlayerColor]

theorem c3_witness :
    metOverlapEx.active = true ∧
    (CollisionSystem.update mathTable [Player.mk0 "host" 0] [] [metOverlapEx] []).meteorites
      = [metOverlapEx] ∧
    (Meteorite.update 10 metOverlapEx).active = false := by
  have h := c3_meteorite_lifecycle mathTable [Player.mk0 "host" 0] metOverlapEx [] rfl
  refine ⟨rfl, ?_, ?_⟩
  · rw [h.1]
    norm_num
  · rw [h.2.2.2.2 10 metOverlapEx]
    norm_num [metOverlapEx, Meteorite.mk0]

/-!  C6. -/

theorem jsRound_intCast (n : ℤ) : jsRound (n : ℚ) = n := by
  unfold jsRound
  rw [add_comm, Int.floor_add_int]
  norm_num

theorem jsRound_abs_le (q : ℚ) : |(jsRound q : ℚ) - q| ≤ 1/2 := by
  unfold jsRound
  rw [abs_le]
  have h1 := Int.lt_floor_add_one (q + 1/2)
  have h2 := Int.floor_le (q + 1/2)
  constructor <;> push_cast at h1 h2 ⊢ <;> linarith

theorem round0_idem (q : ℚ) : round0 (round0 q) = round0 q := by
  unfold round0
  rw [jsRound_intCast]

theorem round1_idem (q : ℚ) : round1 (round1 q) = round1 q := by
  unfold round1
  have h : (jsRound (q * 10) : ℚ) / 10 * 10 = (jsRound (q * 10) : ℚ) := by ring
  rw [h, jsRound_intCast]

theorem round2_idem (q : ℚ) : round2 (round2 q) = round2 q := by
  unfold round2
  have h : (jsRound (q * 100) : ℚ) / 100 * 100 = (jsRound (q * 100) : ℚ) := by
    ring
  rw [h, jsRound_intCast]

theorem round0_abs_le (q : ℚ) : |round0 q - q| ≤ 1/2 := jsRound_abs_le q

theorem round1_abs_le (q : ℚ) : |round1 q - q| ≤ 1/20 := by
  have h := jsRound_abs_le (q * 10)
  rw [abs_le] at h ⊢
  unfold round1
  obtain ⟨h1, h2⟩ := h
  constructor <;> [linarith; linarith]

theorem round2_abs_le (q : ℚ) : |round2 q - q| ≤ 1/200 := by
  have h := jsRound_abs_le (q * 100)
  rw [abs_le] at h ⊢
  unfold round2
  obtain ⟨h1, h2⟩ := h
  constructor <;> [linarith; linarith]

theorem iv_roundtrip (q : ℚ) :
    decide ((0:ℚ) < (if decide (0 < q) then (1:ℚ) else 0)) = decide (0 < q) := by
  by_cases h : (0:ℚ) < q
  · simp [h]
  · simp [h]

/-- C6 (counterexample): a projectile with boosted (sniper) damage 70 at
x = 0.4 does not round-trip — the cycle resets `damage` to the constructor
default 20 and rounds `x` to the whole number 0, an error of 0.4 that
exceeds the documented one-decimal precision bound of 1/20. -/
theorem c6_counterexample :
    projC6Ex.damage = 70 ∧
    (Projectile.fromSerialized (Projectile.serialize projC6Ex)).damage = 20 ∧
    projC6Ex.x = 2/5 ∧
    (Projectile.fromSerialized (Projectile.serialize projC6Ex)).x = 0 ∧
    ¬ |(Projectile.fromSerialized (Projectile.serialize projC6Ex)).x -
        projC6Ex.x| ≤ 1/20 := by
  refine ⟨rfl, rfl, rfl, ?_, ?_⟩
  · norm_num [projC6Ex, Projectile.fromSerialized, Projectile.serialize,
      Projectile.mk0, round0, jsRound]
  · norm_num [projC6Ex, Projectile.fromSerialized, Projectile.serialize,
      Projectile.mk0, round0, jsRound]
    rw [abs_of_pos (by norm_num : (0:ℚ) < 2/5)]
    norm_num

/-- C6 (amended): the wire cycle for each entity kind reproduces exactly the
fields that are serialized, at the precision actually used — one decimal for
player position/velocity but WHOLE numbers for projectile, meteorite and
pickup positions; two decimals for angles and timers — while the fields that
are not carried are reset to constructor defaults (projectile damage/radius/
lifetime, meteorite age/damage and a re-randomised spin rate, pickup bob
phase); a player's `invulnerable` collapses to the flag value 1 or 0; and a
second serialize/deserialize cycle is the identity on wire data for every
kind. -/
theorem c6_serialization_roundtrip :
    (∀ p : Player,
      (Player.fromSerialized (Player.serialize p)).id = p.id ∧
      (Player.fromSerialized (Player.serialize p)).index = p.index ∧
      (Player.fromSerialized (Player.serialize p)).name = p.name ∧
      (Player.fromSerialized (Player.serialize p)).color = p.color ∧
      (Player.fromSerialized (Player.serialize p)).x = round1 p.x ∧
      |(Player.fromSerialized (Player.serialize p)).x - p.x| ≤ 1/20 ∧
      (Player.fromSerialized (Player.serialize p)).y = round1 p.y ∧
      (Player.fromSerialized (Player.serialize p)).vx = round1 p.vx ∧
      (Player.fromSerialized (Player.serialize p)).vy = round1 p.vy ∧
      (Player.fromSerialized (Player.serialize p)).isGrounded = p.isGrounded ∧
      (Player.fromSerialized (Player.serialize p)).surfaceAngle
        = round2 p.surfaceAngle ∧
      |(Player.fromSerialized (Player.serialize p)).surfaceAngle -
        p.surfaceAngle| ≤ 1/200 ∧
      (Player.fromSerialized (Player.serialize p)).health = p.health ∧
      (Player.fromSerialized (Player.serialize p)).alive = p.alive ∧
      (Player.fromSerialized (Player.serialize p)).kills = p.kills ∧
      (Player.fromSerialized (Player.serialize p)).deaths = p.deaths ∧
      (Player.fromSerialized (Player.serialize p)).invulnerable
        = (if decide (0 < p.invulnerable) then 1 else 0) ∧
      Player.serialize (Player.fromSerialized (Player.serialize p))
        = Player.serialize p) ∧
    (∀ q : Projectile,
      (Projectile.fromSerialized (Projectile.serialize q)).x = round0 q.x ∧
      |(Projectile.fromSerialized (Projectile.serialize q)).x - q.x| ≤ 1/2 ∧
      (Projectile.fromSerialized (Projectile.serialize q)).y = round0 q.y ∧
      (Projectile.fromSerialized (Projectile.serialize q)).vx = round0 q.vx ∧
      (Projectile.fromSerialized (Projectile.serialize q)).vy = round0 q.vy ∧
      (Projectile.fromSerialized (Projectile.serialize q)).ownerId
        = q.ownerId ∧
      (Projectile.fromSerialized (Projectile.serialize q)).color = q.color ∧
      (Projectile.fromSerialized (Projectile.serialize q)).age
        = round2 q.age ∧
      (Projectile.fromSerialized (Projectile.serialize q)).damage = 20 ∧
      (Projectile.fromSerialized (Projectile.serialize q)).radius = 3 ∧
      (Projectile.fromSerialized (Projectile.serialize q)).lifetime = 3 ∧
      Projectile.serialize (Projectile.fromSerialized (Projectile.serialize q))
        = Projectile.serialize q) ∧
    (∀ (rnd : Nat → ℚ) (mt : Meteorite),
      (Meteorite.fromSerialized rnd (Meteorite.serialize mt)).x
        = round0 mt.x ∧
      (Meteorite.fromSerialized rnd (Meteorite.serialize mt)).y
        = round0 mt.y ∧
      (Meteorite.fromSerialized rnd (Meteorite.serialize mt)).vx
        = round0 mt.vx ∧
      (Meteorite.fromSerialized rnd (Meteorite.serialize mt)).vy
        = round0 mt.vy ∧
      (Meteorite.fromSerialized rnd (Meteorite.serialize mt)).radius
        = mt.radius ∧
      (Meteorite.fromSerialized rnd (Meteorite.serialize mt)).rotation
        = round2 mt.rotation ∧
      (Meteorite.fromSerialized rnd (Meteorite.serialize mt)).shape
        = mt.shape ∧
      (Meteorite.fromSerialized rnd (Meteorite.serialize mt)).age = 0 ∧
      (Meteorite.fromSerialized rnd (Meteorite.serialize mt)).damage = 50 ∧
      (Meteorite.fromSerialized rnd (Meteorite.serialize mt)).rotationSpeed
        = (rnd 1 - 1/2) * 4 ∧
      Meteorite.serialize (Meteorite.fromSerialized rnd (Meteorite.serialize mt))
        = Meteorite.serialize mt) ∧
    (∀ (rnd : ℚ) (pk : Pickup),
      (Pickup.fromSerialized rnd (Pickup.serialize pk)).id = pk.id ∧
      (Pickup.fromSerialized rnd (Pickup.serialize pk)).x = round0 pk.x ∧
      (Pickup.fromSerialized rnd (Pickup.serialize pk)).y = round0 pk.y ∧
      (Pickup.fromSerialized rnd (Pickup.serialize pk)).typeKey
        = pk.typeKey ∧
      (Pickup.fromSerialized rnd (Pickup.serialize pk)).time = rnd * 10 ∧
      (Pickup.fromSerialized rnd (Pickup.serialize pk)).surfaceAngle = 0 ∧
      Pickup.serialize (Pickup.fromSerialized rnd (Pickup.serialize pk))
        = Pickup.serialize pk) := by
  refine ⟨fun p => ?_, fun q => ?_, fun rnd mt => ?_, fun rnd pk => ?_⟩
  · refine ⟨rfl, rfl, rfl, rfl, rfl, round1_abs_le p.x, rfl, rfl, rfl, rfl,
      rfl, round2_abs_le p.surfaceAngle, rfl, rfl, rfl, rfl, rfl, ?_⟩
    simp [Player.serialize, Player.fromSerialized, Player.applyState,
      Player.mk0, round1_idem, round2_idem, iv_roundtrip]
    by_cases h : (0:ℚ) < p.invulnerable
    · simp [h]
    · simp [h]
  · refine ⟨rfl, round0_abs_le q.x, rfl, rfl, rfl, rfl, rfl, rfl, rfl, rfl,
      rfl, ?_⟩
    simp [Projectile.serialize, Projectile.fromSerialized, Projectile.mk0,
      round0_idem, round2_idem]
  · refine ⟨rfl, rfl, rfl, rfl, rfl, rfl, rfl, rfl, rfl, rfl, ?_⟩
    simp [Meteorite.serialize, Meteorite.fromSerialized, Meteorite.mk0,
      round0_idem, round2_idem]
  · refine ⟨rfl, rfl, rfl, rfl, rfl, rfl, ?_⟩
    simp [Pickup.serialize, Pickup.fromSerialized, Pickup.mk0, round0_idem]

/-!  C8. -/

theorem findBracket_eq_specBracket (rt : ℚ) :
    ∀ buf : List Snap,
      ClientState.findBracket rt buf = ClientState.specBracket rt buf
  | [] => rfl
  | [_] => rfl
  | a :: b :: rest => by
    by_cases hc : (decide (a.timestamp ≤ rt) && decide (rt ≤ b.timestamp)) = true
    · rw [ClientState.findBracket, if_pos hc]
      simp only [ClientState.specBracket, List.tail_cons, List.zip_cons_cons]
      have hc' : (fun (ab : Snap × Snap) =>
          decide (ab.1.timestamp ≤ rt) && decide (rt ≤ ab.2.timestamp)) (a, b)
          = true := hc
      exact (@List.find?_cons_of_pos (Snap × Snap)
        (fun ab => decide (ab.1.timestamp ≤ rt) && decide (rt ≤ ab.2.timestamp))
        (a, b) ((b :: rest).zip rest) hc').symm
    · rw [ClientState.findBracket, if_neg hc,
        findBracket_eq_specBracket rt (b :: rest)]
      simp only [ClientState.specBracket, List.tail_cons, List.zip_cons_cons]
      have hc' : ¬ (fun (ab : Snap × Snap) =>
          decide (ab.1.timestamp ≤ rt) && decide (rt ≤ ab.2.timestamp)) (a, b)
          = true := hc
      exact (@List.find?_cons_of_neg (Snap × Snap)
        (fun ab => decide (ab.1.timestamp ≤ rt) && decide (rt ≤ ab.2.timestamp))
        (a, b) ((b :: rest).zip rest) hc').symm

/-- C8: `getInterpolatedState` agrees with the spec-side description for
every buffer and render time (bracket by the first straddling adjacent
pair, interpolation fraction clamped to [0,1]); with fewer than two
snapshots, or when no adjacent pair brackets the render time, it returns
the newest buffered snapshot unmodified; and `receiveState` always leaves
the received snapshot newest, keeps the buffer within 10 entries, and at
capacity evicts exactly the oldest entry. -/
theorem c8_client_interpolation (buf : List Snap) (now : ℚ) (s : Snap) :
    ClientState.getInterpolatedState buf now
      = ClientState.specInterpolated buf now ∧
    (buf.length < 2 →
      ClientState.getInterpolatedState buf now
        = (buf.getLast?).map (fun x => x.state)) ∧
    (ClientState.findBracket (now - ClientState.INTERP_DELAY) buf = none →
      ClientState.getInterpolatedState buf now
        = (buf.getLast?).map (fun x => x.state)) ∧
    (ClientState.receiveState buf s).getLast? = some s ∧
    (buf.length ≤ 10 → (ClientState.receiveState buf s).length ≤ 10) ∧
    (buf.length = 10 →
      ClientState.receiveState buf s = buf.drop 1 ++ [s]) := by
  refine ⟨?_, ?_, ?_, ?_, ?_, ?_⟩
  · match buf with
    | [] => rfl
    | [_] => rfl
    | a :: b :: rest =>
      have hlen : ¬ ((a :: b :: rest).length < 2) := by
        simp [List.length_cons]
      unfold ClientState.getInterpolatedState ClientState.specInterpolated
      rw [if_neg hlen]
      dsimp only
      rw [findBracket_eq_specBracket]
  · intro h
    unfold ClientState.getInterpolatedState
    rw [if_pos h]
  · intro h
    unfold ClientState.getInterpolatedState
    by_cases hlen : buf.length < 2
    · rw [if_pos hlen]
    · rw [if_neg hlen]
      simp only [h]
  · unfold ClientState.receiveState
    by_cases hl : 10 < (buf ++ [s]).length
    · rw [if_pos hl]
      have hb : 1 ≤ buf.length := by
        simp only [List.length_append, List.length_singleton] at hl
        omega
      rw [List.drop_append_eq_append_drop]
      simp only [Nat.sub_eq_zero_of_le hb, List.drop_zero]
      exact List.getLast?_concat _
    · rw [if_neg hl]
      exact List.getLast?_concat _
  · intro h
    unfold ClientState.receiveState
    by_cases hl : 10 < (buf ++ [s]).length
    · rw [if_pos hl]
      simp only [List.length_drop, List.length_append, List.length_singleton]
      omega
    · rw [if_neg hl]
      omega
  · intro h
    unfold ClientState.receiveState
    rw [if_pos (by simp [List.length_append, h])]
    rw [List.drop_append_eq_append_drop]
    simp [h]

theorem c8_witness :
    ClientState.getInterpolatedState [snapA, snapB] 130
      = ClientState.specInterpolated [snapA, snapB] 130 ∧
    (ClientState.getInterpolatedState [snapA, snapB] 130).map
      (fun g => g.players.map (fun p => p.x)) = some [3] ∧
    ClientState.getInterpolatedState [snapA] 130
      = ([snapA].getLast?).map (fun x => x.state) ∧
    ClientState.getInterpolatedState [snapA, snapB] 300
      = ([snapA, snapB].getLast?).map (fun x => x.state) ∧
    (ClientState.receiveState [snapA, snapB] snapB).getLast? = some snapB ∧
    (ClientState.receiveState [snapA, snapB] snapB).length ≤ 10 ∧
    ClientState.receiveState (List.replicate 10 snapA) snapB
      = (List.replicate 10 snapA).drop 1 ++ [snapB] := by
  refine ⟨(c8_client_interpolation [snapA, snapB] 130 snapB).1, ?_,
    (c8_client_interpolation [snapA] 130 snapA).2.1 (by norm_num),
    (c8_client_interpolation [snapA, snapB] 300 snapB).2.2.1 ?_,
    (c8_client_interpolation [snapA, snapB] 130 snapB).2.2.2.1,
    (c8_client_interpolation [snapA, snapB] 130 snapB).2.2.2.2.1 (by norm_num),
    (c8_client_interpolation (List.replicate 10 snapA) 130 snapB).2.2.2.2.2
      (by simp)⟩
  · norm_num [ClientState.getInterpolatedState, ClientState.findBracket,
      ClientState.interpPlayers, ClientState.INTERP_DELAY, snapA, snapB, pw0,
      Physics.lerp, List.find?, min_def, max_def]
  · norm_num [ClientState.findBracket, ClientState.INTERP_DELAY, snapA, snapB]
